import Mathlib

/-!
Verification of the terminal ASCII 3D renderer (`run.py`).

This file is a shallow embedding of the parts of the program that the
claims talk about:

* real-valued geometry (`Vec3`, the camera basis of `Camera._update_vectors`,
  `Model.get_face_data`, the `Cube` model, the procedural forest generators
  and the terrain height field) is embedded over `ℝ` — Python floats are
  idealized as real numbers, and `math.sqrt`/`math.sin`/`math.cos`/`math.exp`
  become their real counterparts;
* the integer hash arithmetic (`_terrain_hash`, `ForestChunk._chunk_seed`)
  is embedded exactly, with Python's `& 0xFFFFFFFF` masks rendered as
  Euclidean `% 2^32` and `^` as two's-complement xor (`Int.xor`);
* the rational-arithmetic parts of the renderer (near-plane clipping, the
  per-pixel z-buffer discipline, projection/rounding, fog edge-color
  selection) and the chunk-streaming set logic of `ForestWorld.update` are
  embedded over `ℚ`, which models exact arithmetic on the small decimal
  constants of the source; `math.sqrt` inside the per-pixel lighting is
  abstracted as an explicit function argument `sqrtA : ℚ → ℚ`, universally
  quantified in the theorems (none of the settled claims depends on its
  value);
* Python's `random.Random(seed)` stream is modelled as an abstract function
  `RNG : ℕ → ℕ → ℝ` (seed and draw index to value), universally quantified
  in the theorems about it; each `rng.random()` call of the source consumes
  one index of the stream in source order;
* fallible attribute access (`Renderer.light_pos` / `Renderer.ambient`,
  which exist only after `set_fov`) is modelled with `Option`, and the
  orthographic render path returns `Except` so that an `AttributeError`
  is an explicit error value;
* Python set iteration order in `ForestWorld.update`'s chunk-loading loops
  is unspecified, so the loading loops take explicit iteration lists,
  universally quantified over all enumerations of the corresponding sets.
-/

set_option maxHeartbeats 1000000

noncomputable section

/-! ## Definitions -/

/-- 3D vector over `ℝ` — embeds the `Vec3` class (floats idealized as reals). -/
structure Vec3 where
  x : ℝ
  y : ℝ
  z : ℝ

/-- `Vec3.dot` from the source. -/
def Vec3.dot (a b : Vec3) : ℝ := a.x * b.x + a.y * b.y + a.z * b.z

/-- Standard cross product `a × b` (used to state the handedness claim C1). -/
def Vec3.cross (a b : Vec3) : Vec3 :=
  ⟨a.y * b.z - a.z * b.y, a.z * b.x - a.x * b.z, a.x * b.y - a.y * b.x⟩

/-- `Vec3.normalize` from the source: divide by the Euclidean length if it is
positive, else return the zero vector. -/
def Vec3.normalize (v : Vec3) : Vec3 :=
  let l := Real.sqrt (v.x ^ 2 + v.y ^ 2 + v.z ^ 2)
  if 0 < l then ⟨v.x / l, v.y / l, v.z / l⟩ else ⟨0, 0, 0⟩

/-- `self.forward` as computed by `Camera._update_vectors`:
`(sin yaw * cos pitch, sin pitch, -(cos yaw * cos pitch))`. -/
def cam_forward (yaw pitch : ℝ) : Vec3 :=
  ⟨Real.sin yaw * Real.cos pitch, Real.sin pitch,
   -(Real.cos yaw * Real.cos pitch)⟩

/-- `self.right` as computed by `Camera._update_vectors`:
`(cos yaw, 0, sin yaw)` (pitch is not used). -/
def cam_right (yaw : ℝ) : Vec3 :=
  ⟨Real.cos yaw, 0, Real.sin yaw⟩

/-- `self.up` as computed by `Camera._update_vectors`:
`(-(sin yaw * sin pitch), cos pitch, cos yaw * sin pitch)`. -/
def cam_up (yaw pitch : ℝ) : Vec3 :=
  ⟨-(Real.sin yaw * Real.sin pitch), Real.cos pitch,
   Real.cos yaw * Real.sin pitch⟩

/-- A face record: transformed vertices, centroid, outward unit normal and an
optional wireframe-color tag (`none` for filled faces). -/
structure FaceRec where
  verts : List Vec3
  center : Vec3
  normal : Vec3
  tag : Option String

/-- Build a `(verts, center, normal)` record from a vertex list, exactly as
`Model.get_face_data` / `_make_face` do: centroid is the arithmetic mean,
normal is `normalize (e2 × e1)` where `e1 = vs[1] - vs[0]` and
`e2 = vs[-1] - vs[0]`.  The source only ever passes lists of 3 or 4 vertices;
out-of-range accesses are totalized with the zero vector. -/
def mk_face (vs : List Vec3) : FaceRec :=
  let n : ℝ := vs.length
  let center : Vec3 :=
    ⟨(vs.map Vec3.x).sum / n, (vs.map Vec3.y).sum / n, (vs.map Vec3.z).sum / n⟩
  let v0 := vs.headD ⟨0, 0, 0⟩
  let v1 := (vs.drop 1).headD ⟨0, 0, 0⟩
  let vl := vs.getLastD ⟨0, 0, 0⟩
  let e1 : Vec3 := ⟨v1.x - v0.x, v1.y - v0.y, v1.z - v0.z⟩
  let e2 : Vec3 := ⟨vl.x - v0.x, vl.y - v0.y, vl.z - v0.z⟩
  ⟨vs, center, (Vec3.cross e2 e1).normalize, none⟩

/-- `Model.get_face_data`: map the fixed face-index table over the current
vertex buffer.  With identity orientation (no `rotate` call) the current
vertex buffer equals the construction-time vertex list, which is what is
passed here. -/
def get_face_data (vertices : List Vec3) (faces : List (List ℕ)) :
    List FaceRec :=
  faces.map (fun f => mk_face (f.map (fun i => vertices.getD i ⟨0, 0, 0⟩)))

/-- `Cube.__init__` vertex table for half-extent `s`. -/
def cube_vertices (s : ℝ) : List Vec3 :=
  [⟨-s, -s, -s⟩, ⟨s, -s, -s⟩, ⟨s, s, -s⟩, ⟨-s, s, -s⟩,
   ⟨-s, -s, s⟩, ⟨s, -s, s⟩, ⟨s, s, s⟩, ⟨-s, s, s⟩]

/-- `Cube.__init__` face-index table (back, front, left, right, top, bottom). -/
def cube_faces : List (List ℕ) :=
  [[0, 1, 2, 3], [5, 4, 7, 6], [4, 0, 3, 7], [1, 5, 6, 2], [3, 2, 6, 7],
   [4, 5, 1, 0]]

/-- Face data of a `Cube(size=s)` with identity orientation. -/
def cube_face_data (s : ℝ) : List FaceRec :=
  get_face_data (cube_vertices s) cube_faces

/-- The orthographic back-face cull of `Renderer._render_ortho`: keep the
faces with `normal.z > 0`. -/
def ortho_visible (fd : List FaceRec) : List FaceRec :=
  fd.filter (fun f => decide (0 < f.normal.z))

/-! ### Hashes and the terrain height field -/

/-- `_terrain_hash(ix, iz, seed)`: 32-bit hash of a grid cell, returning a
rational in `[0, 1]`.  Python's `& 0xFFFFFFFF` on a possibly negative int is
Euclidean `% 2^32`; `^` on the resulting non-negative values is `Nat.xor`. -/
def terrain_hash (ix iz seed : ℤ) : ℚ :=
  let h1 : ℕ := ((seed * 1103515245 + 12345) % 2 ^ 32).toNat
  let h2 : ℕ := (h1 ^^^ ((ix * 73856093) % 2 ^ 32).toNat) % 2 ^ 32
  let h3 : ℕ :=
    ((h2 * 1103515245 + 12345) ^^^ ((iz * 19349663) % 2 ^ 32).toNat) % 2 ^ 32
  ((h3 % 2 ^ 16 : ℕ) : ℚ) / 65535

/-- `ForestChunk._chunk_seed(world_seed, cx, cz)`: the deterministic RNG seed
of a chunk, a 32-bit value derived only from the world seed and the chunk
coordinates. -/
def chunk_seed (world_seed cx cz : ℤ) : ℕ :=
  let h0 : ℕ := (world_seed % 2 ^ 32).toNat
  let h1 : ℕ :=
    ((h0 * 1103515245 + 12345) ^^^ ((cx * 73856093) % 2 ^ 32).toNat) % 2 ^ 32
  ((h1 * 1103515245 + 12345) ^^^ ((cz * 19349663) % 2 ^ 32).toNat) % 2 ^ 32

/-- `chunk_has_mountain(cx, cz, chunk_size, seed, threshold)`: `True` when
the chunk centre is within `3 × 18` world units of the landmark coordinate
`(6, 45)` (unconditional override), otherwise when the low-frequency mountain
noise at the chunk centre exceeds `threshold`.  The source default threshold
is `0.70`. -/
def chunk_has_mountain (cx cz : ℤ) (chunk_size : ℚ) (seed : ℤ)
    (threshold : ℚ) : Bool :=
  let wx := cx * chunk_size + chunk_size * (1 / 2)
  let wz := cz * chunk_size + chunk_size * (1 / 2)
  let dmx := wx - 6
  let dmz := wz - 45
  if dmx * dmx + dmz * dmz < 54 ^ 2 then true
  else
    let mtn_seed := Int.xor seed 0xDEADBEEF
    let gx := wx / 70
    let gz := wz / 70
    let ix := ⌊gx⌋
    let iz := ⌊gz⌋
    let fx0 := gx - ix
    let fz0 := gz - iz
    let fx := fx0 * fx0 * (3 - 2 * fx0)
    let fz := fz0 * fz0 * (3 - 2 * fz0)
    let h00 := terrain_hash ix iz mtn_seed
    let h10 := terrain_hash (ix + 1) iz mtn_seed
    let h01 := terrain_hash ix (iz + 1) mtn_seed
    let h11 := terrain_hash (ix + 1) (iz + 1) mtn_seed
    let h0 := h00 + (h10 - h00) * fx
    let h1 := h01 + (h11 - h01) * fx
    decide (threshold < h0 + (h1 - h0) * fz)

/-- One layer of smoothed bilinear value noise, the block of code repeated
inline in `terrain_height` for each octave and for the mountain layer. -/
def value_noise (wx wz noise_scale : ℝ) (seed : ℤ) : ℝ :=
  let gx := wx / noise_scale
  let gz := wz / noise_scale
  let ix : ℤ := ⌊gx⌋
  let iz : ℤ := ⌊gz⌋
  let fx0 := gx - ix
  let fz0 := gz - iz
  let fx := fx0 * fx0 * (3 - 2 * fx0)
  let fz := fz0 * fz0 * (3 - 2 * fz0)
  let h00 := ((terrain_hash ix iz seed : ℚ) : ℝ)
  let h10 := ((terrain_hash (ix + 1) iz seed : ℚ) : ℝ)
  let h01 := ((terrain_hash ix (iz + 1) seed : ℚ) : ℝ)
  let h11 := ((terrain_hash (ix + 1) (iz + 1) seed : ℚ) : ℝ)
  let h0 := h00 + (h10 - h00) * fx
  let h1 := h01 + (h11 - h01) * fx
  h0 + (h1 - h0) * fz

/-- `terrain_height(wx, wz, seed)` with the source's default `scale=8.0`,
`amplitude=2.5` (every call site uses the defaults): two octaves of value
noise, a thresholded cubic mountain layer, the guaranteed landmark Gaussian
peak at `(6, 45)` (evaluated only within 3× its radius), offset down by
`0.3 × amplitude`. -/
def terrain_height (wx wz : ℝ) (seed : ℤ) : ℝ :=
  let amplitude : ℝ := 5 / 2
  let t1 := value_noise wx wz 8 seed * amplitude
  let t2 := value_noise wx wz (8 * (4 / 10)) seed * (amplitude * (1 / 4))
  let mtn_noise := value_noise wx wz 70 (Int.xor seed 0xDEADBEEF)
  let mtn_factor := max 0 ((mtn_noise - 65 / 100) / (35 / 100))
  let base := t1 + t2 + mtn_factor * mtn_factor * mtn_factor * 25
  let dmx := wx - 6
  let dmz := wz - 45
  let d2 := dmx * dmx + dmz * dmz
  let total :=
    if d2 < (18 * 3) ^ 2 then
      base + 30 * Real.exp (-d2 / (2 * 18 * 18))
    else base
  total - amplitude * (3 / 10)

/-! ### Forest generators (`_make_face` convention, `_rotate_y`) -/

/-- The terrain wireframe tag string of `make_terrain_grid`. -/
def TERRAIN_EDGE : String := "\x1b[38;2;60;90;45m.\x1b[0m"

/-- The yellow path-marker tag string of `ForestWorld.get_face_data`. -/
def PATH_EDGE : String := "\x1b[38;2;255;255;0m#\x1b[0m"

/-- The default (unfogged) face-edge string `Renderer.EDGE_STR`. -/
def EDGE_STR : String := "\x1b[38;2;159;239;0m#\x1b[0m"

/-- `_rotate_y(lx, lz, cos_a, sin_a)`. -/
def rotate_y (lx lz ca sa : ℝ) : ℝ × ℝ :=
  (lx * ca + lz * sa, -lx * sa + lz * ca)

/-- `make_pine_tree(wx, wz, height, angle, rng, base_y)` — the source takes
an `rng` argument but never draws from it, so it is omitted here.  4 trunk
quads followed by 3 shrinking pyramid tiers of 4 triangles each. -/
def make_pine_tree (wx wz height angle base_y : ℝ) : List FaceRec :=
  let ca := Real.cos angle
  let sa := Real.sin angle
  let tw : ℝ := 10 / 100
  let th := height * (40 / 100)
  let corners : List (ℝ × ℝ) := [(-tw, -tw), (tw, -tw), (tw, tw), (-tw, tw)]
  let trunk := corners.map (fun p =>
    let r := rotate_y p.1 p.2 ca sa
    (Vec3.mk (wx + r.1) base_y (wz + r.2),
     Vec3.mk (wx + r.1) (base_y + th) (wz + r.2)))
  let trunk_faces := (List.range 4).map (fun i =>
    let j := (i + 1) % 4
    let bt0 := trunk.getD i (⟨0, 0, 0⟩, ⟨0, 0, 0⟩)
    let bt1 := trunk.getD j (⟨0, 0, 0⟩, ⟨0, 0, 0⟩)
    mk_face [bt0.1, bt1.1, bt1.2, bt0.2])
  let canopy_start := th * (70 / 100)
  let canopy_height := height - canopy_start
  let tier_h := canopy_height / 3
  let tier_faces := (List.range 3).flatMap (fun t =>
    let tier_base_y := canopy_start + t * tier_h * (65 / 100)
    let tier_apex_y := canopy_start + ((t : ℝ) + 1) * tier_h +
      t * tier_h * (5 / 100)
    let progress : ℝ := (t : ℝ) / 3
    let tier_radius := height * (38 / 100 - (10 / 100) * progress)
    let apex := Vec3.mk wx (base_y + tier_apex_y) wz
    let base := ([(-tier_radius, -tier_radius), (tier_radius, -tier_radius),
        (tier_radius, tier_radius), (-tier_radius, tier_radius)] :
        List (ℝ × ℝ)).map (fun p =>
      let r := rotate_y p.1 p.2 ca sa
      Vec3.mk (wx + r.1) (base_y + tier_base_y) (wz + r.2))
    (List.range 4).map (fun i =>
      let j := (i + 1) % 4
      mk_face [base.getD i ⟨0, 0, 0⟩, base.getD j ⟨0, 0, 0⟩, apex]))
  trunk_faces ++ tier_faces

/-- `make_rock(wx, wz, scale, angle, rng, base_y)`: the three `rng.random()`
draws of the source (`rh`, `offx`, `offz`) are passed as `r1, r2, r3` in
source order.  Irregular tetrahedron: 3 side triangles plus bottom. -/
def make_rock (wx wz scale angle r1 r2 r3 base_y : ℝ) : List FaceRec :=
  let ca := Real.cos angle
  let sa := Real.sin angle
  let rh := scale * (30 / 100 + r1 * (30 / 100))
  let rw := scale * (1 / 2)
  let offx := scale * (r2 - 1 / 2) * (30 / 100)
  let offz := scale * (r3 - 1 / 2) * (30 / 100)
  let pts_local : List (ℝ × ℝ × ℝ) :=
    [(-rw, base_y, -rw * (70 / 100)), (rw, base_y, -rw * (1 / 2)),
     (rw * (30 / 100), base_y, rw), (offx, base_y + rh, offz)]
  let pts := pts_local.map (fun p =>
    let r := rotate_y p.1 p.2.2 ca sa
    Vec3.mk (wx + r.1) p.2.1 (wz + r.2))
  let p0 := pts.getD 0 ⟨0, 0, 0⟩
  let p1 := pts.getD 1 ⟨0, 0, 0⟩
  let p2 := pts.getD 2 ⟨0, 0, 0⟩
  let p3 := pts.getD 3 ⟨0, 0, 0⟩
  [mk_face [p0, p1, p3], mk_face [p1, p2, p3], mk_face [p2, p0, p3],
   mk_face [p0, p2, p1]]

/-- `make_bush(wx, wz, scale, angle, rng, base_y)` — `rng` unused in the
source body.  A low pyramid: 4 triangles. -/
def make_bush (wx wz scale angle base_y : ℝ) : List FaceRec :=
  let ca := Real.cos angle
  let sa := Real.sin angle
  let bw := scale * (40 / 100)
  let bh := scale * (35 / 100)
  let apex := Vec3.mk wx (base_y + bh) wz
  let base := ([(-bw, -bw), (bw, -bw), (bw, bw), (-bw, bw)] :
      List (ℝ × ℝ)).map (fun p =>
    let r := rotate_y p.1 p.2 ca sa
    Vec3.mk (wx + r.1) base_y (wz + r.2))
  (List.range 4).map (fun i =>
    let j := (i + 1) % 4
    mk_face [base.getD i ⟨0, 0, 0⟩, base.getD j ⟨0, 0, 0⟩, apex])

/-- `make_terrain_grid(cx, cz, chunk_size, seed, grid_res)`: a `grid_res ×
grid_res` grid of wireframe quads whose vertex heights come from
`terrain_height`, each tagged with `TERRAIN_EDGE`. -/
def make_terrain_grid (cx cz : ℤ) (chunk_size : ℝ) (seed : ℤ)
    (grid_res : ℕ) : List FaceRec :=
  let cell := chunk_size / grid_res
  let x0 := cx * chunk_size
  let z0 := cz * chunk_size
  let vert := fun (gi gj : ℕ) =>
    let vx := x0 + gi * cell
    let vz := z0 + gj * cell
    Vec3.mk vx (terrain_height vx vz seed) vz
  (List.range grid_res).flatMap (fun gi =>
    (List.range grid_res).map (fun gj =>
      let f := mk_face [vert gi gj, vert (gi + 1) gj, vert (gi + 1) (gj + 1),
        vert gi (gj + 1)]
      { f with tag := some TERRAIN_EDGE }))

/-! ### `ForestChunk` generation

`rng : ℕ → ℝ` is the value stream of `random.Random(chunk_seed)`; `k` is the
index of the next unconsumed draw.  Draw order follows the source exactly:
`roll`, then (for non-empty cells) `jx`, `jz`, `angle`, then the size/scale
draw, then `make_rock`'s three internal draws. -/

/-- One cell of `ForestChunk._generate`'s 4×4 placement loop; returns the new
stream index and the faces generated for the cell. -/
def gen_cell (rng : ℕ → ℝ) (k : ℕ) (cx cz : ℤ) (cs : ℝ) (world_seed : ℤ)
    (gi gj : ℕ) : ℕ × List FaceRec :=
  let cell_size := cs / 4
  let cell_cx := cx * cs + ((gi : ℝ) + 1 / 2) * cell_size
  let cell_cz := cz * cs + ((gj : ℝ) + 1 / 2) * cell_size
  let roll := rng k
  if roll < 75 / 100 then
    let jx := (rng (k + 1) - 1 / 2) * cell_size * (70 / 100)
    let jz := (rng (k + 2) - 1 / 2) * cell_size * (70 / 100)
    let wx := cell_cx + jx
    let wz := cell_cz + jz
    let angle := rng (k + 3) * Real.pi * 2
    let base_y := terrain_height wx wz world_seed
    if roll < 30 / 100 then
      let height := 18 / 10 + rng (k + 4) * (15 / 10)
      (k + 5, make_pine_tree wx wz height angle base_y)
    else if roll < 50 / 100 then
      let scale := 25 / 100 + rng (k + 4) * (40 / 100)
      (k + 8, make_rock wx wz scale angle (rng (k + 5)) (rng (k + 6))
        (rng (k + 7)) base_y)
    else
      let scale := 40 / 100 + rng (k + 4) * (30 / 100)
      (k + 5, make_bush wx wz scale angle base_y)
  else (k + 1, [])

/-- `ForestChunk._generate`: terrain-only chunks emit a coarse 3×3 terrain
grid; otherwise the 4×4 cell loop (row-major `gi` outer, `gj` inner, threading
the RNG stream index) followed by the full-resolution 6×6 terrain grid. -/
def forest_chunk_faces (RNG : ℕ → ℕ → ℝ) (world_seed cx cz : ℤ) (cs : ℝ)
    (terrain_only : Bool) : List FaceRec :=
  if terrain_only then make_terrain_grid cx cz cs world_seed 3
  else
    let rng := RNG (chunk_seed world_seed cx cz)
    let cells := (List.range 4).flatMap (fun gi =>
      (List.range 4).map (fun gj => (gi, gj)))
    let res := cells.foldl (fun acc c =>
      let r := gen_cell rng acc.1 cx cz cs world_seed c.1 c.2
      (r.1, acc.2 ++ r.2)) ((0 : ℕ), ([] : List FaceRec))
    res.2 ++ make_terrain_grid cx cz cs world_seed 6

/-- A `ForestChunk` object: coordinates, size, tier flag, generated faces. -/
structure ForestChunk where
  cx : ℤ
  cz : ℤ
  chunk_size : ℝ
  terrain_only : Bool
  face_data : List FaceRec

/-- `ForestChunk.__init__(cx, cz, chunk_size, world_seed, terrain_only)`. -/
def mkForestChunk (RNG : ℕ → ℕ → ℝ) (world_seed cx cz : ℤ) (cs : ℝ)
    (terrain_only : Bool) : ForestChunk :=
  ⟨cx, cz, cs, terrain_only,
   forest_chunk_faces RNG world_seed cx cz cs terrain_only⟩

/-! ### `ForestWorld.update` chunk streaming -/

/-- The square of chunk coordinates scanned by a `range(-r, r+1)²` double
loop around centre `c` — i.e. the Chebyshev ball of radius `r`. -/
def cheb_square (c : ℤ × ℤ) (r : ℤ) : Finset (ℤ × ℤ) :=
  Finset.Icc (c.1 - r) (c.1 + r) ×ˢ Finset.Icc (c.2 - r) (c.2 + r)

/-- The streaming-relevant state of a `ForestWorld`: seed, chunk size, render
distance, the key set of the loaded chunk map and the mountain-noise cache
(chunk values themselves are `mkForestChunk` of the key and tier, and play no
role in the streaming set logic). -/
structure WorldState where
  seed : ℤ
  chunk_size : ℚ
  render_distance : ℤ
  chunks : Finset (ℤ × ℤ)
  mtn_cache : (ℤ × ℤ) → Option Bool

/-- The camera's containing chunk: `floor(position / chunk_size)`. -/
def cam_chunk (w : WorldState) (cam_x cam_z : ℚ) : ℤ × ℤ :=
  (⌊cam_x / w.chunk_size⌋, ⌊cam_z / w.chunk_size⌋)

/-- Tier 1 (`needed`): full-detail chunks within `render_distance`. -/
def tier1_set (w : WorldState) (cam_x cam_z : ℚ) : Finset (ℤ × ℤ) :=
  cheb_square (cam_chunk w cam_x cam_z) w.render_distance

/-- `terrain_rd = max(8, rd * 3)`. -/
def terrain_rd (w : WorldState) : ℤ := max 8 (w.render_distance * 3)

/-- `mtn_rd = max(16, rd * 3)`. -/
def mtn_rd (w : WorldState) : ℤ := max 16 (w.render_distance * 3)

/-- Tier 2 (`terrain_needed`): intermediate terrain-only chunks within
`terrain_rd`, excluding tier 1. -/
def tier2_set (w : WorldState) (cam_x cam_z : ℚ) : Finset (ℤ × ℤ) :=
  cheb_square (cam_chunk w cam_x cam_z) (terrain_rd w) \
    tier1_set w cam_x cam_z

/-- The keys scanned by the tier-3 loop: the `mtn_rd` square minus the keys
already covered by tiers 1–2 (the loop `continue`s on those before touching
the cache). -/
def mtn_scan_set (w : WorldState) (cam_x cam_z : ℚ) : Finset (ℤ × ℤ) :=
  cheb_square (cam_chunk w cam_x cam_z) (mtn_rd w) \
    (tier1_set w cam_x cam_z ∪ tier2_set w cam_x cam_z)

/-- The mountain cache after the tier-3 scan: scanned keys not yet cached get
`chunk_has_mountain` (with the source's default threshold `0.70`); everything
else is untouched. -/
def cache_after (w : WorldState) (cam_x cam_z : ℚ) : (ℤ × ℤ) → Option Bool :=
  fun k =>
    if k ∈ mtn_scan_set w cam_x cam_z then
      match w.mtn_cache k with
      | none => some (chunk_has_mountain k.1 k.2 w.chunk_size w.seed (7 / 10))
      | some b => some b
    else w.mtn_cache k

/-- Tier 3 (`mtn_needed`): scanned keys whose (freshly populated) cache entry
is `true`. -/
def tier3_set (w : WorldState) (cam_x cam_z : ℚ) : Finset (ℤ × ℤ) :=
  (mtn_scan_set w cam_x cam_z).filter
    (fun k => cache_after w cam_x cam_z k = some true)

/-- `all_needed`: the union of the three tier sets computed this call. -/
def all_needed_set (w : WorldState) (cam_x cam_z : ℚ) : Finset (ℤ × ℤ) :=
  tier1_set w cam_x cam_z ∪ tier2_set w cam_x cam_z ∪ tier3_set w cam_x cam_z

/-- The union of the three tier sets as claim C3 phrases them: Chebyshev
distance from the camera chunk at most `render_distance` (tier 1), at most
`max(8, 3·rd)` (tier 2), or at most `max(16, 3·rd)` together with
`chunk_has_mountain` (tier 3). -/
def in_tier_union (w : WorldState) (cam_x cam_z : ℚ) (k : ℤ × ℤ) : Prop :=
  (|k.1 - (cam_chunk w cam_x cam_z).1| ≤ w.render_distance ∧
   |k.2 - (cam_chunk w cam_x cam_z).2| ≤ w.render_distance) ∨
  (|k.1 - (cam_chunk w cam_x cam_z).1| ≤ max 8 (w.render_distance * 3) ∧
   |k.2 - (cam_chunk w cam_x cam_z).2| ≤ max 8 (w.render_distance * 3)) ∨
  ((|k.1 - (cam_chunk w cam_x cam_z).1| ≤ max 16 (w.render_distance * 3) ∧
    |k.2 - (cam_chunk w cam_x cam_z).2| ≤ max 16 (w.render_distance * 3)) ∧
   chunk_has_mountain k.1 k.2 w.chunk_size w.seed (7 / 10) = true)

/-- One chunk-loading loop of `update`: walk `keys` in iteration order, load
(insert) each key not already loaded, and stop once `budget` chunks have been
loaded this call. -/
def load_up_to (budget : ℕ) : List (ℤ × ℤ) → Finset (ℤ × ℤ) → ℕ →
    Finset (ℤ × ℤ)
  | [], s, _ => s
  | k :: rest, s, cnt =>
    if k ∈ s then load_up_to budget rest s cnt
    else
      let s1 := insert k s
      if budget ≤ cnt + 1 then s1 else load_up_to budget rest s1 (cnt + 1)

/-- `ForestWorld.update(camera)`: recompute the three tier sets, unload every
chunk outside their union, then load new chunks tier by tier under the
per-call budgets (2 tier-1 chunks — 4 when `render_distance > 3` — then 8
tier-2, then 8 tier-3).  `o1, o2, o3` are the iteration orders of the three
Python set-iteration loops (Python set order is unspecified). -/
def world_update (w : WorldState) (cam_x cam_z : ℚ)
    (o1 o2 o3 : List (ℤ × ℤ)) : WorldState :=
  let kept := w.chunks ∩ all_needed_set w cam_x cam_z
  let max_load : ℕ := if w.render_distance ≤ 3 then 2 else 4
  let s1 := load_up_to max_load o1 kept 0
  let s2 := load_up_to 8 o2 s1 0
  let s3 := load_up_to 8 o3 s2 0
  { w with chunks := s3, mtn_cache := cache_after w cam_x cam_z }

/-! ### Renderer (rational layer) -/

/-- Python's `round` (round-half-to-even) on a rational. -/
def py_round (q : ℚ) : ℤ :=
  let f := ⌊q⌋
  let r := q - f
  if r < 1 / 2 then f
  else if 1 / 2 < r then f + 1
  else if f % 2 = 0 then f else f + 1

/-- Python's `int()` (truncation toward zero) on a rational. -/
def py_int (q : ℚ) : ℤ := if q < 0 then -⌊-q⌋ else ⌊q⌋

/-- The body of `Renderer._clip_polygon_near`'s loop for one directed edge
`cur → nxt`: append `cur` when inside (`cam_z > near`), and append the
linearly interpolated intersection at `cam_z = near` when the edge crosses
the plane in either direction. -/
def clip_edge (near : ℚ) (cur nxt : ℚ × ℚ × ℚ) : List (ℚ × ℚ × ℚ) :=
  if near < cur.2.2 then
    if near < nxt.2.2 then [cur]
    else
      let t := (near - cur.2.2) / (nxt.2.2 - cur.2.2)
      [cur, (cur.1 + t * (nxt.1 - cur.1),
             cur.2.1 + t * (nxt.2.1 - cur.2.1), near)]
  else if near < nxt.2.2 then
    let t := (near - cur.2.2) / (nxt.2.2 - cur.2.2)
    [(cur.1 + t * (nxt.1 - cur.1),
      cur.2.1 + t * (nxt.2.1 - cur.2.1), near)]
  else []

/-- `Renderer._clip_polygon_near(cam_vs, near)`: Sutherland–Hodgman clip of a
camera-space polygon (list of `(cx, cy, cz)` tuples) against the plane
`cam_z = near`, walking the edges `vs[i] → vs[(i+1) % n]` in order. -/
def clip_polygon_near (cam_vs : List (ℚ × ℚ × ℚ)) (near : ℚ) :
    List (ℚ × ℚ × ℚ) :=
  let n := cam_vs.length
  (List.range n).flatMap (fun i =>
    clip_edge near (cam_vs.getD i (0, 0, 0))
      (cam_vs.getD ((i + 1) % n) (0, 0, 0)))

/-- 3D vector over `ℚ` for the renderer layer. -/
structure VecQ where
  x : ℚ
  y : ℚ
  z : ℚ
deriving DecidableEq

/-- `Renderer` state.  `light_pos` and `ambient` are `Option` because the
source assigns them only inside `set_fov`; reading them before `set_fov`
raises `AttributeError`. -/
structure RendererQ where
  width : ℕ
  height : ℕ
  scale : ℚ
  near_plane : ℚ
  focal : ℚ
  draw_edges : Bool
  fog_distance : ℚ
  light_pos : Option (ℚ × ℚ × ℚ)
  ambient : Option ℚ

/-- `Renderer.__init__(width, height, model=None)`: with no model the scale
is `1.0`; `near_plane = 0.01`, `focal = width * 0.8`, edges on, fog off, and
crucially no `light_pos` / `ambient` attribute yet. -/
def mk_renderer (w h : ℕ) : RendererQ :=
  ⟨w, h, 1, 1 / 100, (w : ℚ) * (8 / 10), true, 0, none, none⟩

/-- `Renderer.set_fov(fov_degrees)`: recompute the focal length and assign
`light_pos = (3,4,3)` and `ambient = 0.12`.  The transcendental
`tan(radians(fov)/2)` is supplied by the caller as `tan_half_fov`. -/
def set_fov (r : RendererQ) (tan_half_fov : ℚ) : RendererQ :=
  { r with focal := ((r.width : ℚ) * (1 / 2)) / tan_half_fov,
           light_pos := some (3, 4, 3), ambient := some (12 / 100) }

/-- `Renderer._project_vertex_ortho(v)`: round to screen coordinates and
keep only points within a generous margin (`max(width, height)`). -/
def project_vertex_ortho (r : RendererQ) (v : VecQ) : Option (ℤ × ℤ) :=
  let x := py_round (v.x * r.scale + ((r.width / 2 : ℕ) : ℚ))
  let y := py_round (-v.y * r.scale / 2 + ((r.height / 2 : ℕ) : ℚ))
  let margin : ℤ := max r.width r.height
  if -margin ≤ x ∧ x < (r.width : ℤ) + margin ∧
     -margin ≤ y ∧ y < (r.height : ℤ) + margin then some (x, y)
  else none

/-- `Renderer._point_in_polygon`: cross-product sign-consistency test. -/
def point_in_polygon (px py : ℤ) (pr : List (ℤ × ℤ)) : Bool :=
  let n := pr.length
  let ds := (List.range n).map (fun i =>
    let a := pr.getD i (0, 0)
    let b := pr.getD ((i + 1) % n) (0, 0)
    (px - b.1) * (a.2 - b.2) - (a.1 - b.1) * (py - b.2))
  !(ds.any (fun d => decide (0 < d)) && ds.any (fun d => decide (d < 0)))

/-- The shading ramp `Renderer.SHADING = '.:-=+*%@'` (8 characters, so
`num_shades = 7`). -/
def shading_chars : List Char := ['.', ':', '-', '=', '+', '*', '%', '@']

/-- A concrete square-root table for witnesses and counterexamples: exact on
the squared distances that actually occur there (25 and 100). -/
def sqrtW : ℚ → ℚ := fun q => if q = 25 then 5 else if q = 100 then 10 else 0

/-- `shading[max(0, min(num_shades, idx))]` as a one-character string. -/
def shade_str (idx : ℤ) : String :=
  String.singleton (shading_chars.getD (max 0 (min 7 idx)).toNat ' ')

/-- `nz_inv` of `_draw_face_lit_ortho`: `1/nz` when `|nz| > 1e-10`, else the
fallback `0.0` — note: *not* a pixel skip. -/
def ortho_nz_inv (nz : ℚ) : ℚ := if 1 / 10 ^ 10 < |nz| then 1 / nz else 0

/-- The per-pixel plane-equation depth of the orthographic fill:
`wz = v0.z - (nx*(wx - v0.x) + ny*(wy - v0.y)) * nz_inv`. -/
def ortho_depth (n v0 : VecQ) (wx wy : ℚ) : ℚ :=
  v0.z - (n.x * (wx - v0.x) + n.y * (wy - v0.y)) * ortho_nz_inv n.z

/-- The point-light brightness of the orthographic fill at world point
`(wx, wy, wz)` with unit normal `n`; `sqrtA` abstracts `math.sqrt`. -/
def ortho_brightness (sqrtA : ℚ → ℚ) (lp : ℚ × ℚ × ℚ) (amb : ℚ) (n : VecQ)
    (wx wy wz : ℚ) : ℚ :=
  let dx := lp.1 - wx
  let dy := lp.2.1 - wy
  let dz := lp.2.2 - wz
  let dist := sqrtA (dx * dx + dy * dy + dz * dz)
  if 0 < dist then
    let inv_d := 1 / dist
    let diffuse := max 0 (n.x * dx * inv_d + n.y * dy * inv_d +
      n.z * dz * inv_d)
    let atten := 1 / (1 + (2 / 100) * dist * dist)
    amb + (1 - amb) * diffuse * atten
  else 1

/-- The character the orthographic fill would write at a pixel. -/
def ortho_shade (sqrtA : ℚ → ℚ) (lp : ℚ × ℚ × ℚ) (amb : ℚ) (n : VecQ)
    (wx wy wz : ℚ) : String :=
  shade_str (py_int (ortho_brightness sqrtA lp amb n wx wy wz * 7))

/-- The per-pixel body of `_draw_face_lit_ortho` (after the point-in-polygon
test): reconstruct the plane depth, skip if strictly behind the z-buffer,
otherwise write depth and shaded character.  State is `(z-buffer value,
buffer cell)` at the pixel. -/
def ortho_pixel_step (sqrtA : ℚ → ℚ) (lp : ℚ × ℚ × ℚ) (amb : ℚ)
    (n v0 : VecQ) (wx wy : ℚ) (st : ℚ × String) : ℚ × String :=
  let wz := ortho_depth n v0 wx wy
  if wz < st.1 then st
  else (wz, ortho_shade sqrtA lp amb n wx wy wz)

/-- `d = cn·cv0`, the camera-space plane constant of `_draw_face_lit_persp`. -/
def persp_plane_d (cn cv0 : ℚ × ℚ × ℚ) : ℚ :=
  cn.1 * cv0.1 + cn.2.1 * cv0.2.1 + cn.2.2 * cv0.2.2

/-- The per-pixel denominator `cnx*rx + cny*ry + cnz` of the perspective
depth reconstruction. -/
def persp_denom (cn : ℚ × ℚ × ℚ) (rx ry : ℚ) : ℚ :=
  cn.1 * rx + cn.2.1 * ry + cn.2.2

/-- The perspective per-pixel brightness: point light in camera space,
then the fog multiplier `(1 - fog²)` when fog is enabled
(`fog_height_factor` is the constant `1.0` in the source). -/
def persp_brightness (sqrtA : ℚ → ℚ) (amb : ℚ) (cn lc : ℚ × ℚ × ℚ)
    (fog_dist rx ry cam_z : ℚ) : ℚ :=
  let cam_x := rx * cam_z
  let cam_y := ry * cam_z
  let dlx := lc.1 - cam_x
  let dly := lc.2.1 - cam_y
  let dlz := lc.2.2 - cam_z
  let dist := sqrtA (dlx * dlx + dly * dly + dlz * dlz)
  let b0 :=
    if 0 < dist then
      let inv_d := 1 / dist
      let diffuse := max 0 (cn.1 * dlx * inv_d + cn.2.1 * dly * inv_d +
        cn.2.2 * dlz * inv_d)
      let atten := 1 / (1 + (2 / 100) * dist * dist)
      amb + (1 - amb) * diffuse * atten
    else 1
  if 0 < fog_dist then
    let fog := min 1 (cam_z / fog_dist)
    b0 * (1 - fog * fog)
  else b0

/-- `idx = int(brightness * num_shades)` of the perspective fill. -/
def persp_idx (sqrtA : ℚ → ℚ) (amb : ℚ) (cn lc : ℚ × ℚ × ℚ)
    (fog_dist rx ry cam_z : ℚ) : ℤ :=
  py_int (persp_brightness sqrtA amb cn lc fog_dist rx ry cam_z * 7)

/-- The per-pixel body of `_draw_face_lit_persp`'s scanline fill: skip on a
near-singular denominator (`|denom| < 1e-10`), skip behind the near plane,
z-test against the stored `-cam_z` depth, then write the depth; the shaded
character is written unless the fog blackout (`idx <= 0 and fog_dist > 0`)
applies — in which case the depth has still been written. -/
def persp_pixel_step (sqrtA : ℚ → ℚ) (amb : ℚ) (cn cv0 lc : ℚ × ℚ × ℚ)
    (near fog_dist rx ry : ℚ) (st : ℚ × String) : ℚ × String :=
  let denom := persp_denom cn rx ry
  if |denom| < 1 / 10 ^ 10 then st
  else
    let cam_z := persp_plane_d cn cv0 / denom
    if cam_z ≤ near then st
    else
      let zz := -cam_z
      if zz < st.1 then st
      else
        let idx := persp_idx sqrtA amb cn lc fog_dist rx ry cam_z
        if idx ≤ 0 ∧ 0 < fog_dist then (zz, st.2)
        else (zz, shade_str idx)

/-! ### Perspective edge pass: fog fade and edge-color selection -/

/-- The fog fade computed by the edge pass of `_render_perspective`:
`fog = min(1, avg(cam_z) / fog_dist)`, reduced by the altitude term for
wireframe faces above height 4, then `fade = max(0, 1 - fog_eff²)`. -/
def edge_fog_fade (fog_dist : ℚ) (cam_zs : List ℚ) (world_y : ℚ)
    (is_wire : Bool) : ℚ :=
  let n : ℚ := cam_zs.length
  let fog := min 1 ((cam_zs.sum / n) / fog_dist)
  let fog_eff :=
    if is_wire ∧ 4 < world_y then
      fog * (1 - (min 1 ((world_y - 4) / 15)) * (92 / 100))
    else fog
  max 0 (1 - fog_eff * fog_eff)

/-- The quantised fog-faded edge string (the value the source's
`edge_cache` memoizes): fade quantised to 21 buckets, colors scaled by
`ff = q * 0.05`. -/
def quant_edge_string (is_wire : Bool) (fog_fade : ℚ) : String :=
  let q := py_int (fog_fade * 20)
  let ff : ℚ := (q : ℚ) * (5 / 100)
  if is_wire then
    "\x1b[38;2;" ++ toString (py_int (60 * ff)) ++ ";" ++
      toString (py_int (90 * ff)) ++ ";" ++ toString (py_int (45 * ff)) ++
      "m.\x1b[0m"
  else
    "\x1b[38;2;" ++ toString (py_int (159 * ff)) ++ ";" ++
      toString (py_int (239 * ff)) ++ ";0m#\x1b[0m"

/-- The edge pass of `_render_perspective`, per face: returns the edge string
the face's edges are drawn with, or `none` when the face is skipped (filled
face with `draw_edges` off, or fog fade below `0.03`).  A wireframe tag other
than `TERRAIN_EDGE` is used verbatim, bypassing fog fading. -/
def edge_string_for (draw_edges : Bool) (fog_dist : ℚ) (cam_zs : List ℚ)
    (world_y : ℚ) (wireframe : Option String) : Option String :=
  if wireframe = none ∧ ¬ draw_edges then none
  else
    let fog_fade :=
      if 0 < fog_dist then
        edge_fog_fade fog_dist cam_zs world_y wireframe.isSome
      else 1
    if 0 < fog_dist ∧ fog_fade < 3 / 100 then none
    else
      match wireframe with
      | some tag =>
        if tag ≠ TERRAIN_EDGE then some tag
        else some (quant_edge_string true fog_fade)
      | none => some (quant_edge_string false fog_fade)

/-! ### Orthographic render path (`render` with `camera=None`) -/

/-- The only mid-frame failure the renderer can hit in the embedding: an
attribute (`light_pos`/`ambient`) read before `set_fov` assigned it. -/
inductive RendErr where
  | attribute_missing
deriving DecidableEq

/-- Frame buffer and z-buffer, indexed `(row, column)`. -/
def BufZ : Type := (ℤ → ℤ → String) × (ℤ → ℤ → ℚ)

/-- The integers from `a` to `b` inclusive (a Python `range(a, b+1)`). -/
def int_range (a b : ℤ) : List ℤ :=
  (List.range (b + 1 - a).toNat).map (fun k => a + (k : ℤ))

/-- The Bresenham loop of `Renderer._draw_line`, with explicit fuel (the loop
draws at most `max(dx, dy) + 1 ≤ dx + dy + 1` pixels before reaching the end
point, so the fuel below never runs out on the source's inputs). -/
def draw_line_loop (w h : ℕ) (x2 y2 dx dy sx sy : ℤ) (z_inc : ℚ)
    (ch : String) : ℕ → ℤ → ℤ → ℤ → ℚ → BufZ → BufZ
  | 0, _, _, _, _, bz => bz
  | Nat.succ fuel, x1, y1, err, z, bz =>
    let bz1 :=
      if 0 ≤ x1 ∧ x1 < (w : ℤ) ∧ 0 ≤ y1 ∧ y1 < (h : ℤ) ∧ bz.2 y1 x1 ≤ z then
        ((fun j i => if j = y1 ∧ i = x1 then ch else bz.1 j i),
         (fun j i => if j = y1 ∧ i = x1 then z else bz.2 j i))
      else bz
    if x1 = x2 ∧ y1 = y2 then bz1
    else
      let e2 := 2 * err
      let ex := if -dy < e2 then (err - dy, x1 + sx) else (err, x1)
      let ey := if e2 < dx then (ex.1 + dx, y1 + sy) else (ex.1, y1)
      draw_line_loop w h x2 y2 dx dy sx sy z_inc ch fuel ex.2 ey.2 ey.1
        (z + z_inc) bz1

/-- `Renderer._draw_line(p1, p2, z1, z2, char, z_bias)`: z-buffered Bresenham
line with incremental depth. -/
def draw_line (w h : ℕ) (p1 p2 : ℤ × ℤ) (z1 z2 : ℚ) (ch : String)
    (z_bias : ℚ) (bz : BufZ) : BufZ :=
  let dx := |p2.1 - p1.1|
  let dy := |p2.2 - p1.2|
  let sx : ℤ := if p1.1 < p2.1 then 1 else -1
  let sy : ℤ := if p1.2 < p2.2 then 1 else -1
  let total := max dx dy
  let z_inc := if 0 < total then (z2 - z1) / (total : ℚ) else 0
  draw_line_loop w h p2.1 p2.2 dx dy sx sy z_inc ch (dx + dy + 1).toNat
    p1.1 p1.2 (dx - dy) (z1 + z_bias) bz

/-- `Renderer._draw_face_lit_ortho`: reads `self.light_pos` / `self.ambient`
*before* the pixel loops (an `AttributeError` if `set_fov` was never called),
then bounding-box scans the polygon with the per-pixel point-in-polygon test
and `ortho_pixel_step`. -/
def fill_face_ortho (r : RendererQ) (sqrtA : ℚ → ℚ)
    (projected : List (ℤ × ℤ)) (v0 n : VecQ) (bz : BufZ) :
    Except RendErr BufZ :=
  match r.light_pos, r.ambient with
  | some lp, some amb =>
    let xs := projected.map Prod.fst
    let ys := projected.map Prod.snd
    let xmin := max 0 ((xs.min?).getD 0)
    let xmax := min ((r.width : ℤ) - 1) ((xs.max?).getD 0)
    let ymin := max 0 ((ys.min?).getD 0)
    let ymax := min ((r.height : ℤ) - 1) ((ys.max?).getD 0)
    let cx : ℤ := r.width / 2
    let cy : ℤ := r.height / 2
    let inv_scale := 1 / r.scale
    .ok <| (int_range ymin ymax).foldl (fun (bz1 : BufZ) (y : ℤ) =>
      let wy := -((y : ℚ) - (cy : ℚ)) * 2 * inv_scale
      (int_range xmin xmax).foldl (fun (bz2 : BufZ) (x : ℤ) =>
        if point_in_polygon x y projected then
          let wx := ((x : ℚ) - (cx : ℚ)) * inv_scale
          let st := ortho_pixel_step sqrtA lp amb n v0 wx wy
            (bz2.2 y x, bz2.1 y x)
          ((fun j i => if j = y ∧ i = x then st.2 else bz2.1 j i),
           (fun j i => if j = y ∧ i = x then st.1 else bz2.2 j i))
        else bz2) bz1) bz
  | _, _ => .error .attribute_missing

/-- `Renderer._render_ortho(model)` operating on the model's face data (each
entry `(verts, center, normal)`): cull to `normal.z > 0`, fill every fully
projected face (each fill reads `light_pos`, so a missing `set_fov` turns
into an error on the first fill), then Bresenham-draw all edges with depth
bias `+0.005`. -/
def render_ortho (r : RendererQ) (sqrtA : ℚ → ℚ)
    (fd : List (List VecQ × VecQ × VecQ)) :
    Except RendErr (ℤ → ℤ → String) :=
  let visible := fd.filter (fun f => decide (0 < f.2.2.z))
  let init : BufZ := ((fun _ _ => " "), (fun _ _ => -(10 ^ 30 : ℚ)))
  (visible.foldlM (fun (bz : BufZ) (f : List VecQ × VecQ × VecQ) =>
    let pr := f.1.map (project_vertex_ortho r)
    if pr.all Option.isSome then
      fill_face_ortho r sqrtA (pr.map (fun (o : Option (ℤ × ℤ)) => o.getD (0, 0)))
        (f.1.headD ⟨0, 0, 0⟩) f.2.2 bz
    else pure bz) init).map (fun bz0 =>
    (visible.foldl (fun (bz : BufZ) (f : List VecQ × VecQ × VecQ) =>
      let pr := f.1.map (project_vertex_ortho r)
      if pr.all Option.isSome then
        let prj := pr.map (fun (o : Option (ℤ × ℤ)) => o.getD (0, 0))
        let m := prj.length
        (List.range m).foldl (fun (bz2 : BufZ) (i : ℕ) =>
          let j := (i + 1) % m
          draw_line r.width r.height (prj.getD i (0, 0)) (prj.getD j (0, 0))
            ((f.1.getD i ⟨0, 0, 0⟩).z) ((f.1.getD j ⟨0, 0, 0⟩).z)
            EDGE_STR (5 / 1000) bz2) bz
      else bz) bz0).1)

/-! ## Theorems -/

/-! ### C1 — camera basis -/

/-- C1 counterexample: at yaw = 0, pitch = 0 the derived basis satisfies
`right × up = (0,0,1)` while `forward = (0,0,-1)`, so `right × up ≠ forward`:
the ordered triple `{right, up, forward}` is *not* right-handed in the sense
claimed. -/
theorem C1_counterexample :
    ¬ (Vec3.cross (cam_right 0) (cam_up 0 0) = cam_forward 0 0) := by
  simp only [Vec3.cross, cam_right, cam_up, cam_forward, Real.sin_zero,
    Real.cos_zero, Vec3.mk.injEq]
  intro h
  have hz := h.2.2
  norm_num at hz

/-- C1 (amended): for every yaw and every pitch in `[-1.3, 1.3]` the camera's
derived vectors `right`, `up`, `forward` are pairwise orthogonal unit vectors,
but the triple is left-handed: `right × up = -forward` (equivalently
`{right, up, -forward}` is right-handed). -/
theorem C1_camera_basis_orthonormal (yaw pitch : ℝ)
    (_hp : -1.3 ≤ pitch ∧ pitch ≤ 1.3) :
    (cam_right yaw).dot (cam_up yaw pitch) = 0 ∧
    (cam_right yaw).dot (cam_forward yaw pitch) = 0 ∧
    (cam_up yaw pitch).dot (cam_forward yaw pitch) = 0 ∧
    (cam_right yaw).dot (cam_right yaw) = 1 ∧
    (cam_up yaw pitch).dot (cam_up yaw pitch) = 1 ∧
    (cam_forward yaw pitch).dot (cam_forward yaw pitch) = 1 ∧
    Vec3.cross (cam_right yaw) (cam_up yaw pitch) =
      ⟨-(cam_forward yaw pitch).x, -(cam_forward yaw pitch).y,
       -(cam_forward yaw pitch).z⟩ := by
  refine ⟨?_, ?_, ?_, ?_, ?_, ?_, ?_⟩
  · simp only [Vec3.dot, cam_right, cam_up]; ring
  · simp only [Vec3.dot, cam_right, cam_forward]; ring
  · simp only [Vec3.dot, cam_up, cam_forward]
    linear_combination (-(Real.sin pitch * Real.cos pitch)) *
      Real.sin_sq_add_cos_sq yaw
  · simp only [Vec3.dot, cam_right]
    linear_combination Real.cos_sq_add_sin_sq yaw
  · simp only [Vec3.dot, cam_up]
    linear_combination Real.sin pitch ^ 2 * Real.sin_sq_add_cos_sq yaw +
      Real.cos_sq_add_sin_sq pitch
  · simp only [Vec3.dot, cam_forward]
    linear_combination Real.cos pitch ^ 2 * Real.sin_sq_add_cos_sq yaw +
      Real.sin_sq_add_cos_sq pitch
  · simp only [Vec3.cross, cam_right, cam_up, cam_forward, Vec3.mk.injEq]
    refine ⟨by ring, ?_, by ring⟩
    linear_combination (-(Real.sin pitch)) * Real.sin_sq_add_cos_sq yaw

/-- C1 witness: the amended statement instantiated at yaw = 0, pitch = 0. -/
theorem C1_witness :
    ((-1.3 : ℝ) ≤ 0 ∧ (0 : ℝ) ≤ 1.3) ∧
    ((cam_right 0).dot (cam_up 0 0) = 0 ∧
     (cam_right 0).dot (cam_forward 0 0) = 0 ∧
     (cam_up 0 0).dot (cam_forward 0 0) = 0 ∧
     (cam_right 0).dot (cam_right 0) = 1 ∧
     (cam_up 0 0).dot (cam_up 0 0) = 1 ∧
     (cam_forward 0 0).dot (cam_forward 0 0) = 1 ∧
     Vec3.cross (cam_right 0) (cam_up 0 0) =
       ⟨-(cam_forward 0 0).x, -(cam_forward 0 0).y, -(cam_forward 0 0).z⟩) :=
  ⟨by norm_num, C1_camera_basis_orthonormal 0 0 (by norm_num)⟩

/-! ### C4 — cube visibility under the orthographic cull -/

/-- Normalizing an axis-aligned vector with positive z-component. -/
theorem normalize_pos_z (c : ℝ) (hc : 0 < c) :
    Vec3.normalize ⟨0, 0, c⟩ = ⟨0, 0, 1⟩ := by
  unfold Vec3.normalize
  have h1 : Real.sqrt ((0:ℝ) ^ 2 + 0 ^ 2 + c ^ 2) = c := by
    rw [show (0:ℝ) ^ 2 + 0 ^ 2 + c ^ 2 = c ^ 2 by ring, Real.sqrt_sq hc.le]
  rw [h1, if_pos hc]
  simp [div_self hc.ne']

/-- Normalizing an axis-aligned vector with negative z-component. -/
theorem normalize_neg_z (c : ℝ) (hc : c < 0) :
    Vec3.normalize ⟨0, 0, c⟩ = ⟨0, 0, -1⟩ := by
  unfold Vec3.normalize
  have h1 : Real.sqrt ((0:ℝ) ^ 2 + 0 ^ 2 + c ^ 2) = -c := by
    rw [show (0:ℝ) ^ 2 + 0 ^ 2 + c ^ 2 = (-c) ^ 2 by ring,
      Real.sqrt_sq (by linarith)]
  rw [h1, if_pos (by linarith)]
  simp only [Vec3.mk.injEq]
  refine ⟨by norm_num, by norm_num, ?_⟩
  rw [div_neg, div_self hc.ne]

/-- Normalizing an axis-aligned vector with positive x-component. -/
theorem normalize_pos_x (c : ℝ) (hc : 0 < c) :
    Vec3.normalize ⟨c, 0, 0⟩ = ⟨1, 0, 0⟩ := by
  unfold Vec3.normalize
  have h1 : Real.sqrt (c ^ 2 + (0:ℝ) ^ 2 + 0 ^ 2) = c := by
    rw [show c ^ 2 + (0:ℝ) ^ 2 + 0 ^ 2 = c ^ 2 by ring, Real.sqrt_sq hc.le]
  rw [h1, if_pos hc]
  simp [div_self hc.ne']

/-- Normalizing an axis-aligned vector with negative x-component. -/
theorem normalize_neg_x (c : ℝ) (hc : c < 0) :
    Vec3.normalize ⟨c, 0, 0⟩ = ⟨-1, 0, 0⟩ := by
  unfold Vec3.normalize
  have h1 : Real.sqrt (c ^ 2 + (0:ℝ) ^ 2 + 0 ^ 2) = -c := by
    rw [show c ^ 2 + (0:ℝ) ^ 2 + 0 ^ 2 = (-c) ^ 2 by ring,
      Real.sqrt_sq (by linarith)]
  rw [h1, if_pos (by linarith)]
  simp only [Vec3.mk.injEq]
  refine ⟨?_, by norm_num, by norm_num⟩
  rw [div_neg, div_self hc.ne]

/-- Normalizing an axis-aligned vector with positive y-component. -/
theorem normalize_pos_y (c : ℝ) (hc : 0 < c) :
    Vec3.normalize ⟨0, c, 0⟩ = ⟨0, 1, 0⟩ := by
  unfold Vec3.normalize
  have h1 : Real.sqrt ((0:ℝ) ^ 2 + c ^ 2 + 0 ^ 2) = c := by
    rw [show (0:ℝ) ^ 2 + c ^ 2 + 0 ^ 2 = c ^ 2 by ring, Real.sqrt_sq hc.le]
  rw [h1, if_pos hc]
  simp [div_self hc.ne']

/-- Normalizing an axis-aligned vector with negative y-component. -/
theorem normalize_neg_y (c : ℝ) (hc : c < 0) :
    Vec3.normalize ⟨0, c, 0⟩ = ⟨0, -1, 0⟩ := by
  unfold Vec3.normalize
  have h1 : Real.sqrt ((0:ℝ) ^ 2 + c ^ 2 + 0 ^ 2) = -c := by
    rw [show (0:ℝ) ^ 2 + c ^ 2 + 0 ^ 2 = (-c) ^ 2 by ring,
      Real.sqrt_sq (by linarith)]
  rw [h1, if_pos (by linarith)]
  simp only [Vec3.mk.injEq]
  refine ⟨by norm_num, ?_, by norm_num⟩
  rw [div_neg, div_self hc.ne]

/-- The normal computed by `mk_face` on a quad, unfolded to the cross-product
of the last and first edges from `vs[0]`. -/
theorem mk_face_quad_normal (a b c d : Vec3) :
    (mk_face [a, b, c, d]).normal =
      (Vec3.cross ⟨d.x - a.x, d.y - a.y, d.z - a.z⟩
        ⟨b.x - a.x, b.y - a.y, b.z - a.z⟩).normalize := rfl

/-- The six face normals of an identity-orientation cube of half-extent
`s > 0`, in face-table order: back, front, left, right, top, bottom. -/
theorem cube_normals (s : ℝ) (hs : 0 < s) :
    (cube_face_data s).map FaceRec.normal =
      [⟨0, 0, -1⟩, ⟨0, 0, 1⟩, ⟨-1, 0, 0⟩, ⟨1, 0, 0⟩, ⟨0, 1, 0⟩,
       ⟨0, -1, 0⟩] := by
  have h4 : (0:ℝ) < 4 * s ^ 2 := by positivity
  have h4n : -(4 * s ^ 2) < (0:ℝ) := by linarith
  have e : (cube_face_data s).map FaceRec.normal =
      [(mk_face [⟨-s, -s, -s⟩, ⟨s, -s, -s⟩, ⟨s, s, -s⟩, ⟨-s, s, -s⟩]).normal,
       (mk_face [⟨s, -s, s⟩, ⟨-s, -s, s⟩, ⟨-s, s, s⟩, ⟨s, s, s⟩]).normal,
       (mk_face [⟨-s, -s, s⟩, ⟨-s, -s, -s⟩, ⟨-s, s, -s⟩, ⟨-s, s, s⟩]).normal,
       (mk_face [⟨s, -s, -s⟩, ⟨s, -s, s⟩, ⟨s, s, s⟩, ⟨s, s, -s⟩]).normal,
       (mk_face [⟨-s, s, -s⟩, ⟨s, s, -s⟩, ⟨s, s, s⟩, ⟨-s, s, s⟩]).normal,
       (mk_face [⟨-s, -s, s⟩, ⟨s, -s, s⟩, ⟨s, -s, -s⟩, ⟨-s, -s, -s⟩]).normal]
      := rfl
  rw [e]
  simp only [mk_face_quad_normal, List.cons.injEq, and_true]
  refine ⟨?_, ?_, ?_, ?_, ?_, ?_⟩
  · convert normalize_neg_z (-(4 * s ^ 2)) h4n using 2
    simp only [Vec3.cross, Vec3.mk.injEq]
    refine ⟨by ring, by ring, by ring⟩
  · convert normalize_pos_z (4 * s ^ 2) h4 using 2
    simp only [Vec3.cross, Vec3.mk.injEq]
    refine ⟨by ring, by ring, by ring⟩
  · convert normalize_neg_x (-(4 * s ^ 2)) h4n using 2
    simp only [Vec3.cross, Vec3.mk.injEq]
    refine ⟨by ring, by ring, by ring⟩
  · convert normalize_pos_x (4 * s ^ 2) h4 using 2
    simp only [Vec3.cross, Vec3.mk.injEq]
    refine ⟨by ring, by ring, by ring⟩
  · convert normalize_pos_y (4 * s ^ 2) h4 using 2
    simp only [Vec3.cross, Vec3.mk.injEq]
    refine ⟨by ring, by ring, by ring⟩
  · convert normalize_neg_y (-(4 * s ^ 2)) h4n using 2
    simp only [Vec3.cross, Vec3.mk.injEq]
    refine ⟨by ring, by ring, by ring⟩

/-- Count of cube faces passing the orthographic visibility test, for any
half-extent `s > 0`: exactly one face (the front face, normal `(0,0,1)`)
satisfies `normal.z > 0`. -/
theorem cube_visible_count (s : ℝ) (hs : 0 < s) :
    (ortho_visible (cube_face_data s)).length = 1 := by
  rw [ortho_visible, ← List.countP_eq_length_filter]
  rw [show (fun (f : FaceRec) => decide (0 < f.normal.z)) =
      ((fun v : Vec3 => decide (0 < v.z)) ∘ FaceRec.normal) from rfl,
    ← List.countP_map, cube_normals s hs]
  norm_num [List.countP_cons, List.countP_nil]

/-- C4 counterexample: for the default half-extent `s = 1.5` (and in fact any
`s > 0`), only one — not 3 — of the six cube faces passes the orthographic
`normal.z > 0` visibility test under identity orientation: the side faces'
normals `(±1,0,0)`, `(0,±1,0)` have `z = 0` and fail the strict test. -/
theorem C4_counterexample :
    (ortho_visible (cube_face_data (3/2 : ℝ))).length = 1 ∧
    ¬ ((ortho_visible (cube_face_data (3/2 : ℝ))).length = 3) := by
  have h := cube_visible_count (3/2 : ℝ) (by norm_num)
  exact ⟨h, by omega⟩

/-- C4 (amended): for a cube of any positive half-extent `s` with identity
orientation, exactly 1 of the 6 face normals returned by `get_face_data`
satisfies `normal.z > 0`, and that normal equals `(0,0,1)` exactly (hence
within 1e-6); the normals `(1,0,0)` and `(0,1,0)` occur among the six but
have `z = 0` and fail the strict visibility test. -/
theorem C4_cube_visible_faces (s : ℝ) (hs : 0 < s) :
    (ortho_visible (cube_face_data s)).length = 1 ∧
    (∀ f ∈ cube_face_data s, 0 < f.normal.z → f.normal = ⟨0, 0, 1⟩) ∧
    (⟨1, 0, 0⟩ : Vec3) ∈ (cube_face_data s).map FaceRec.normal ∧
    (⟨0, 1, 0⟩ : Vec3) ∈ (cube_face_data s).map FaceRec.normal := by
  refine ⟨cube_visible_count s hs, ?_, ?_, ?_⟩
  · intro f hf hz
    have hm : f.normal ∈ (cube_face_data s).map FaceRec.normal :=
      List.mem_map_of_mem _ hf
    rw [cube_normals s hs] at hm
    simp only [List.mem_cons, List.not_mem_nil, or_false] at hm
    rcases hm with h | h | h | h | h | h
    · rw [h] at hz; norm_num at hz
    · exact h
    · rw [h] at hz; norm_num at hz
    · rw [h] at hz; norm_num at hz
    · rw [h] at hz; norm_num at hz
    · rw [h] at hz; norm_num at hz
  · rw [cube_normals s hs]; simp
  · rw [cube_normals s hs]; simp

/-- C4 witness: the amended statement instantiated at `s = 1.5`, the source's
default cube size. -/
theorem C4_witness :
    (0 : ℝ) < 3/2 ∧
    ((ortho_visible (cube_face_data (3/2 : ℝ))).length = 1 ∧
     (∀ f ∈ cube_face_data (3/2 : ℝ), 0 < f.normal.z →
       f.normal = ⟨0, 0, 1⟩) ∧
     (⟨1, 0, 0⟩ : Vec3) ∈ (cube_face_data (3/2 : ℝ)).map FaceRec.normal ∧
     (⟨0, 1, 0⟩ : Vec3) ∈ (cube_face_data (3/2 : ℝ)).map FaceRec.normal) :=
  ⟨by norm_num, C4_cube_visible_faces (3/2) (by norm_num)⟩

/-! ### C5 — near-plane clipping of a triangle -/

/-- Clipping an edge with both endpoints in front of the near plane keeps
just the current vertex. -/
theorem clip_edge_in_in (near : ℚ) (cur nxt : ℚ × ℚ × ℚ)
    (h1 : near < cur.2.2) (h2 : near < nxt.2.2) :
    clip_edge near cur nxt = [cur] := by
  rw [clip_edge, if_pos h1, if_pos h2]

/-- Clipping an edge that exits through the near plane emits the current
vertex and the interpolated intersection. -/
theorem clip_edge_in_out (near : ℚ) (cur nxt : ℚ × ℚ × ℚ)
    (h1 : near < cur.2.2) (h2 : nxt.2.2 ≤ near) :
    clip_edge near cur nxt =
      [cur, (cur.1 + (near - cur.2.2) / (nxt.2.2 - cur.2.2) * (nxt.1 - cur.1),
             cur.2.1 + (near - cur.2.2) / (nxt.2.2 - cur.2.2) *
               (nxt.2.1 - cur.2.1), near)] := by
  rw [clip_edge, if_pos h1, if_neg (not_lt.mpr h2)]

/-- Clipping an edge that enters through the near plane emits only the
interpolated intersection. -/
theorem clip_edge_out_in (near : ℚ) (cur nxt : ℚ × ℚ × ℚ)
    (h1 : cur.2.2 ≤ near) (h2 : near < nxt.2.2) :
    clip_edge near cur nxt =
      [(cur.1 + (near - cur.2.2) / (nxt.2.2 - cur.2.2) * (nxt.1 - cur.1),
        cur.2.1 + (near - cur.2.2) / (nxt.2.2 - cur.2.2) *
          (nxt.2.1 - cur.2.1), near)] := by
  rw [clip_edge, if_neg (not_lt.mpr h1), if_pos h2]

/-- Clipping an edge entirely behind the near plane emits nothing. -/
theorem clip_edge_out_out (near : ℚ) (cur nxt : ℚ × ℚ × ℚ)
    (h1 : cur.2.2 ≤ near) (h2 : nxt.2.2 ≤ near) :
    clip_edge near cur nxt = [] := by
  rw [clip_edge, if_neg (not_lt.mpr h1), if_neg (not_lt.mpr h2)]

/-- `clip_polygon_near` on a triangle walks the edges `a→b`, `b→c`, `c→a`. -/
theorem clip_triangle_eq (a b c : ℚ × ℚ × ℚ) (near : ℚ) :
    clip_polygon_near [a, b, c] near =
      clip_edge near a b ++ clip_edge near b c ++ clip_edge near c a := by
  simp [clip_polygon_near, List.range_succ]

/-- C5: for every `near > 0` and every camera-space triangle, if exactly one
vertex has depth `≤ near` and the other two have depth `> near`, the clipped
polygon has exactly 4 vertices; if all three vertices have depth `≤ near`,
the clipped polygon is empty (fewer than 3 vertices, so the face is
dropped). -/
theorem C5_clip_triangle (near : ℚ) (_hnear : 0 < near) (a b c : ℚ × ℚ × ℚ) :
    ((a.2.2 ≤ near ∧ near < b.2.2 ∧ near < c.2.2) →
      (clip_polygon_near [a, b, c] near).length = 4) ∧
    ((near < a.2.2 ∧ b.2.2 ≤ near ∧ near < c.2.2) →
      (clip_polygon_near [a, b, c] near).length = 4) ∧
    ((near < a.2.2 ∧ near < b.2.2 ∧ c.2.2 ≤ near) →
      (clip_polygon_near [a, b, c] near).length = 4) ∧
    ((a.2.2 ≤ near ∧ b.2.2 ≤ near ∧ c.2.2 ≤ near) →
      clip_polygon_near [a, b, c] near = []) := by
  refine ⟨?_, ?_, ?_, ?_⟩
  · rintro ⟨ha, hb, hc⟩
    rw [clip_triangle_eq, clip_edge_out_in near a b ha hb,
      clip_edge_in_in near b c hb hc, clip_edge_in_out near c a hc ha]
    rfl
  · rintro ⟨ha, hb, hc⟩
    rw [clip_triangle_eq, clip_edge_in_out near a b ha hb,
      clip_edge_out_in near b c hb hc, clip_edge_in_in near c a hc ha]
    rfl
  · rintro ⟨ha, hb, hc⟩
    rw [clip_triangle_eq, clip_edge_in_in near a b ha hb,
      clip_edge_in_out near b c hb hc, clip_edge_out_in near c a hc ha]
    rfl
  · rintro ⟨ha, hb, hc⟩
    rw [clip_triangle_eq, clip_edge_out_out near a b ha hb,
      clip_edge_out_out near b c hb hc, clip_edge_out_out near c a hc ha]
    rfl

/-- C5 witness: `near = 1` with a triangle whose first vertex is at depth 0
(behind the near plane) and the others at depths 2 and 3, and the all-behind
case instanced by the same theorem's last conjunct at depths 0, 1/2, 1. -/
theorem C5_witness :
    (0 : ℚ) < 1 ∧
    ((((0, 0, 0) : ℚ × ℚ × ℚ).2.2 ≤ 1 ∧
      (1 : ℚ) < ((4, 5, 2) : ℚ × ℚ × ℚ).2.2 ∧
      (1 : ℚ) < ((7, 8, 3) : ℚ × ℚ × ℚ).2.2) →
      (clip_polygon_near [(0, 0, 0), (4, 5, 2), (7, 8, 3)] 1).length = 4) ∧
    ((((0, 0, 0) : ℚ × ℚ × ℚ).2.2 ≤ 1 ∧
      ((4, 5, 2) : ℚ × ℚ × ℚ).2.2 ≤ 1 ∧
      ((7, 8, 3) : ℚ × ℚ × ℚ).2.2 ≤ 1) →
      clip_polygon_near [(0, 0, 0), (4, 5, 2), (7, 8, 3)] 1 = []) := by
  have h := C5_clip_triangle 1 (by norm_num) (0, 0, 0) (4, 5, 2) (7, 8, 3)
  exact ⟨by norm_num, h.1, h.2.2.2⟩

/-! ### C9 — the landmark override of `chunk_has_mountain` -/

/-- C9: with the default chunk size `12.0` and default threshold `0.70`, the
chunk whose square region contains the world point `(6, 45)` — necessarily
chunk `(0, 3)` — has `chunk_has_mountain = True` for *every* seed: its centre
`(6, 42)` lies 3 world units from the landmark coordinate `(6, 45)`, well
within `3 × 18 = 54`, so the unconditional landmark branch fires before the
seed-dependent mountain noise is even consulted. -/
theorem C9_landmark_chunk_mountain (seed : ℤ) (cx cz : ℤ)
    (hx : (cx : ℚ) * 12 ≤ 6 ∧ (6 : ℚ) < ((cx : ℚ) + 1) * 12)
    (hz : (cz : ℚ) * 12 ≤ 45 ∧ (45 : ℚ) < ((cz : ℚ) + 1) * 12) :
    chunk_has_mountain cx cz 12 seed (7 / 10) = true := by
  have hcx : cx = 0 := by
    have h1 : (cx : ℚ) < 1 := by linarith [hx.1]
    have h2 : (-1 : ℚ) < (cx : ℚ) := by linarith [hx.2]
    have h1i : cx < 1 := by exact_mod_cast h1
    have h2i : (-1 : ℤ) < cx := by exact_mod_cast h2
    omega
  have hcz : cz = 3 := by
    have h1 : (cz : ℚ) < 4 := by linarith [hz.1]
    have h2 : (2 : ℚ) < (cz : ℚ) := by linarith [hz.2]
    have h1i : cz < 4 := by exact_mod_cast h1
    have h2i : (2 : ℤ) < cz := by exact_mod_cast h2
    omega
  subst hcx hcz
  rw [chunk_has_mountain]
  norm_num

/-- C9 witness: seed 42 and the chunk `(0, 3)` containing `(6, 45)`. -/
theorem C9_witness :
    (((0 : ℤ) : ℚ) * 12 ≤ 6 ∧ (6 : ℚ) < (((0 : ℤ) : ℚ) + 1) * 12) ∧
    (((3 : ℤ) : ℚ) * 12 ≤ 45 ∧ (45 : ℚ) < (((3 : ℤ) : ℚ) + 1) * 12) ∧
    chunk_has_mountain 0 3 12 42 (7 / 10) = true := by
  refine ⟨⟨by norm_num, by norm_num⟩, ⟨by norm_num, by norm_num⟩, ?_⟩
  exact C9_landmark_chunk_mountain 42 0 3 (by norm_num) (by norm_num)

/-! ### C7 — near-singular depth denominators -/

/-- C7 counterexample: in the *orthographic* fill, a face normal with
`|nz| = 1e-11 < 1e-10` (a visible, nearly edge-on face) does **not** cause the
pixel to be skipped — `nz_inv` falls back to `0`, the depth reconstruction
degenerates to `v0.z`, and the pixel is drawn: the step changes the pixel
state. -/
theorem C7_counterexample :
    |(⟨0, 0, 1 / 10 ^ 11⟩ : VecQ).z| < 1 / 10 ^ 10 ∧
    (0 : ℚ) < (⟨0, 0, 1 / 10 ^ 11⟩ : VecQ).z ∧
    ortho_pixel_step (fun q => if q = 25 then 5 else 0) (0, 0, 5) (12 / 100)
      ⟨0, 0, 1 / 10 ^ 11⟩ ⟨0, 0, 0⟩ 0 0 (-(10 ^ 30), " ") ≠
      (-(10 ^ 30), " ") := by
  refine ⟨?_, by norm_num, ?_⟩
  · show |(1 : ℚ) / 10 ^ 11| < 1 / 10 ^ 10
    rw [abs_of_pos (by norm_num)]
    norm_num
  intro h
  have h1 := congrArg Prod.fst h
  simp only [ortho_pixel_step, ortho_depth, ortho_nz_inv] at h1
  norm_num at h1

/-- C7 (amended): when the per-pixel depth denominator has magnitude below
`1e-10`, the *perspective* fill skips the pixel entirely (state unchanged,
no depth computed or written); the *orthographic* fill does **not** skip —
it replaces `1/nz` by `0`, so the reconstructed depth degenerates to `v0.z`
and the pixel is drawn whenever that depth passes the z-test.  In neither
pipeline is a depth obtained by dividing by the near-zero denominator. -/
theorem C7_near_singular_denominator (sqrtA : ℚ → ℚ) (amb : ℚ)
    (cn cv0 lc : ℚ × ℚ × ℚ) (near fog_dist rx ry : ℚ) (st : ℚ × String)
    (lp : ℚ × ℚ × ℚ) (n v0 : VecQ) (wx wy : ℚ) (st2 : ℚ × String)
    (hd : |persp_denom cn rx ry| < 1 / 10 ^ 10)
    (hz : ¬ (1 / 10 ^ 10 < |n.z|)) :
    persp_pixel_step sqrtA amb cn cv0 lc near fog_dist rx ry st = st ∧
    ortho_pixel_step sqrtA lp amb n v0 wx wy st2 =
      (if v0.z < st2.1 then st2
       else (v0.z, ortho_shade sqrtA lp amb n wx wy v0.z)) := by
  constructor
  · simp only [persp_pixel_step]
    rw [if_pos hd]
  · have hdepth : ortho_depth n v0 wx wy = v0.z := by
      rw [ortho_depth, ortho_nz_inv, if_neg hz]; ring
    simp only [ortho_pixel_step]
    rw [hdepth]

/-- C7 witness: a zero camera-space normal (denominator 0) for the
perspective part and a normal with `n.z = 0` for the orthographic part. -/
theorem C7_witness :
    |persp_denom ((0, 0, 0) : ℚ × ℚ × ℚ) 0 0| < 1 / 10 ^ 10 ∧
    ¬ ((1 : ℚ) / 10 ^ 10 < |(⟨1, 0, 0⟩ : VecQ).z|) ∧
    (persp_pixel_step (fun _ => 0) 0 (0, 0, 0) (0, 0, 1) (0, 0, 0) (1 / 100)
        0 0 0 (-(10 ^ 30), " ") = (-(10 ^ 30), " ") ∧
     ortho_pixel_step (fun _ => 0) (3, 4, 3) (12 / 100) ⟨1, 0, 0⟩ ⟨0, 0, 2⟩
        5 7 (-(10 ^ 30), " ") =
       (if (⟨0, 0, 2⟩ : VecQ).z < (-(10 ^ 30 : ℚ), " ").1
        then (-(10 ^ 30), " ")
        else ((⟨0, 0, 2⟩ : VecQ).z,
          ortho_shade (fun _ => 0) (3, 4, 3) (12 / 100) ⟨1, 0, 0⟩ 5 7
            (⟨0, 0, 2⟩ : VecQ).z))) := by
  refine ⟨?_, ?_, ?_⟩
  · simp only [persp_denom]; norm_num
  · norm_num
  · exact C7_near_singular_denominator (fun _ => 0) 0 (0, 0, 0) (0, 0, 1)
      (0, 0, 0) (1 / 100) 0 0 0 (-(10 ^ 30), " ") (3, 4, 3) ⟨1, 0, 0⟩
      ⟨0, 0, 2⟩ 5 7 (-(10 ^ 30), " ")
      (by simp only [persp_denom]; norm_num) (by norm_num)

/-! ### C6 — z-buffer order independence at a pixel -/

/-- `ortho_pixel_step` on an explicit pixel state, as a plain conditional. -/
theorem ortho_pixel_step_eq (sqrtA : ℚ → ℚ) (lp : ℚ × ℚ × ℚ) (amb : ℚ)
    (n v0 : VecQ) (wx wy z : ℚ) (c : String) :
    ortho_pixel_step sqrtA lp amb n v0 wx wy (z, c) =
      if ortho_depth n v0 wx wy < z then (z, c)
      else (ortho_depth n v0 wx wy,
        ortho_shade sqrtA lp amb n wx wy (ortho_depth n v0 wx wy)) := rfl

/-- When a perspective pixel passes the denominator, near-plane and
fog-blackout guards, the step is a plain z-buffered write. -/
theorem persp_pixel_step_write (sqrtA : ℚ → ℚ) (amb : ℚ)
    (cn cv0 lc : ℚ × ℚ × ℚ) (near fog_dist rx ry z : ℚ) (c : String)
    (hd : ¬ (|persp_denom cn rx ry| < 1 / 10 ^ 10))
    (hn : near < persp_plane_d cn cv0 / persp_denom cn rx ry)
    (hi : 0 < persp_idx sqrtA amb cn lc fog_dist rx ry
      (persp_plane_d cn cv0 / persp_denom cn rx ry)) :
    persp_pixel_step sqrtA amb cn cv0 lc near fog_dist rx ry (z, c) =
      if -(persp_plane_d cn cv0 / persp_denom cn rx ry) < z then (z, c)
      else (-(persp_plane_d cn cv0 / persp_denom cn rx ry),
        shade_str (persp_idx sqrtA amb cn lc fog_dist rx ry
          (persp_plane_d cn cv0 / persp_denom cn rx ry))) := by
  simp only [persp_pixel_step]
  rw [if_neg hd, if_neg (not_le.mpr hn)]
  by_cases hz : -(persp_plane_d cn cv0 / persp_denom cn rx ry) < z
  · rw [if_pos hz, if_pos hz]
  · rw [if_neg hz, if_neg hz, if_neg]
    intro hc
    exact absurd hc.1 (not_le.mpr hi)

/-- C6 counterexample: in the perspective pipeline with fog enabled, two
opaque faces at camera depths 5 (near, dark: shade index 0, so the fog
blackout suppresses its character while still writing its depth) and 10
(far, lit: shade index 2) produce *different* final characters depending on
fill order — far-then-near leaves the far face's shade, near-then-far leaves
the untouched background — refuting order independence as claimed. -/
theorem C6_counterexample :
    (persp_pixel_step
        sqrtW (12 / 100)
        (0, 0, 1) (0, 0, 5) (0, 0, 0) (1 / 100) 40 0 0
        (persp_pixel_step
          sqrtW
          (12 / 100) (0, 0, -1) (0, 0, 10) (0, 0, 0) (1 / 100) 40 0 0
          (-(10 ^ 30), " "))).2 ≠
    (persp_pixel_step
        sqrtW (12 / 100)
        (0, 0, -1) (0, 0, 10) (0, 0, 0) (1 / 100) 40 0 0
        (persp_pixel_step
          sqrtW
          (12 / 100) (0, 0, 1) (0, 0, 5) (0, 0, 0) (1 / 100) 40 0 0
          (-(10 ^ 30), " "))).2 := by
  have eF0 : persp_pixel_step
      sqrtW (12 / 100)
      (0, 0, -1) (0, 0, 10) (0, 0, 0) (1 / 100) 40 0 0
      (-(10 ^ 30), " ") = (-10, "-") := by
    norm_num [persp_pixel_step, persp_denom, persp_plane_d, persp_idx,
      persp_brightness, py_int, min_def, max_def, shade_str, shading_chars,
      sqrtW]
    rfl
  have eN0 : persp_pixel_step
      sqrtW (12 / 100)
      (0, 0, 1) (0, 0, 5) (0, 0, 0) (1 / 100) 40 0 0
      (-(10 ^ 30), " ") = (-5, " ") := by
    norm_num [persp_pixel_step, persp_denom, persp_plane_d, persp_idx,
      persp_brightness, py_int, min_def, max_def, shade_str, shading_chars,
      sqrtW]
  have eNF : persp_pixel_step
      sqrtW (12 / 100)
      (0, 0, 1) (0, 0, 5) (0, 0, 0) (1 / 100) 40 0 0
      (-10, "-") = (-5, "-") := by
    norm_num [persp_pixel_step, persp_denom, persp_plane_d, persp_idx,
      persp_brightness, py_int, min_def, max_def, shade_str, shading_chars,
      sqrtW]
  have eFN : persp_pixel_step
      sqrtW (12 / 100)
      (0, 0, -1) (0, 0, 10) (0, 0, 0) (1 / 100) 40 0 0
      (-5, " ") = (-5, " ") := by
    norm_num [persp_pixel_step, persp_denom, persp_plane_d, sqrtW]
  rw [eF0, eNF, eN0, eFN]
  intro h
  exact absurd h (by decide)

/-- C6 (amended): the per-pixel write discipline is order-independent with
the nearer face's shade winning, for any two faces at distinct reconstructed
depths that both pass the initial z-buffer value — unconditionally in the
orthographic fill, and in the perspective fill provided both pixels actually
write their shade (denominator not near-singular, depth past the near plane,
and shade index positive so the fog blackout does not suppress the
character). -/
theorem C6_zbuffer_order_independence (sqrtA : ℚ → ℚ) (lp : ℚ × ℚ × ℚ)
    (amb : ℚ) (n1 v01 n2 v02 : VecQ) (wx wy z0 : ℚ) (c0 : String)
    (cn1 cv01 cn2 cv02 lc : ℚ × ℚ × ℚ) (near fog_dist rx ry zp : ℚ)
    (cp : String)
    (h1 : z0 ≤ ortho_depth n1 v01 wx wy)
    (h2 : z0 ≤ ortho_depth n2 v02 wx wy)
    (h12 : ortho_depth n1 v01 wx wy ≠ ortho_depth n2 v02 wx wy)
    (p1d : ¬ (|persp_denom cn1 rx ry| < 1 / 10 ^ 10))
    (p2d : ¬ (|persp_denom cn2 rx ry| < 1 / 10 ^ 10))
    (p1n : near < persp_plane_d cn1 cv01 / persp_denom cn1 rx ry)
    (p2n : near < persp_plane_d cn2 cv02 / persp_denom cn2 rx ry)
    (p1i : 0 < persp_idx sqrtA amb cn1 lc fog_dist rx ry
      (persp_plane_d cn1 cv01 / persp_denom cn1 rx ry))
    (p2i : 0 < persp_idx sqrtA amb cn2 lc fog_dist rx ry
      (persp_plane_d cn2 cv02 / persp_denom cn2 rx ry))
    (q1 : zp ≤ -(persp_plane_d cn1 cv01 / persp_denom cn1 rx ry))
    (q2 : zp ≤ -(persp_plane_d cn2 cv02 / persp_denom cn2 rx ry))
    (q12 : -(persp_plane_d cn1 cv01 / persp_denom cn1 rx ry) ≠
      -(persp_plane_d cn2 cv02 / persp_denom cn2 rx ry)) :
    (ortho_pixel_step sqrtA lp amb n2 v02 wx wy
        (ortho_pixel_step sqrtA lp amb n1 v01 wx wy (z0, c0)) =
      ortho_pixel_step sqrtA lp amb n1 v01 wx wy
        (ortho_pixel_step sqrtA lp amb n2 v02 wx wy (z0, c0)) ∧
     (ortho_pixel_step sqrtA lp amb n2 v02 wx wy
        (ortho_pixel_step sqrtA lp amb n1 v01 wx wy (z0, c0))).2 =
      (if ortho_depth n2 v02 wx wy < ortho_depth n1 v01 wx wy
       then ortho_shade sqrtA lp amb n1 wx wy (ortho_depth n1 v01 wx wy)
       else ortho_shade sqrtA lp amb n2 wx wy
         (ortho_depth n2 v02 wx wy))) ∧
    (persp_pixel_step sqrtA amb cn2 cv02 lc near fog_dist rx ry
        (persp_pixel_step sqrtA amb cn1 cv01 lc near fog_dist rx ry
          (zp, cp)) =
      persp_pixel_step sqrtA amb cn1 cv01 lc near fog_dist rx ry
        (persp_pixel_step sqrtA amb cn2 cv02 lc near fog_dist rx ry
          (zp, cp)) ∧
     (persp_pixel_step sqrtA amb cn2 cv02 lc near fog_dist rx ry
        (persp_pixel_step sqrtA amb cn1 cv01 lc near fog_dist rx ry
          (zp, cp))).2 =
      (if -(persp_plane_d cn2 cv02 / persp_denom cn2 rx ry) <
          -(persp_plane_d cn1 cv01 / persp_denom cn1 rx ry)
       then shade_str (persp_idx sqrtA amb cn1 lc fog_dist rx ry
         (persp_plane_d cn1 cv01 / persp_denom cn1 rx ry))
       else shade_str (persp_idx sqrtA amb cn2 lc fog_dist rx ry
         (persp_plane_d cn2 cv02 / persp_denom cn2 rx ry)))) := by
  constructor
  · rw [ortho_pixel_step_eq sqrtA lp amb n1 v01 wx wy z0 c0,
      ortho_pixel_step_eq sqrtA lp amb n2 v02 wx wy z0 c0,
      if_neg (not_lt.mpr h1), if_neg (not_lt.mpr h2),
      ortho_pixel_step_eq, ortho_pixel_step_eq]
    rcases h12.lt_or_lt with hlt | hlt
    · rw [if_neg (not_lt.mpr hlt.le), if_pos hlt]
      exact ⟨rfl, by rw [if_neg (not_lt.mpr hlt.le)]⟩
    · rw [if_pos hlt, if_neg (not_lt.mpr hlt.le)]
      exact ⟨rfl, by rw [if_pos hlt]⟩
  · rw [persp_pixel_step_write sqrtA amb cn1 cv01 lc near fog_dist rx ry zp
        cp p1d p1n p1i,
      persp_pixel_step_write sqrtA amb cn2 cv02 lc near fog_dist rx ry zp
        cp p2d p2n p2i,
      if_neg (not_lt.mpr q1), if_neg (not_lt.mpr q2),
      persp_pixel_step_write sqrtA amb cn2 cv02 lc near fog_dist rx ry _ _
        p2d p2n p2i,
      persp_pixel_step_write sqrtA amb cn1 cv01 lc near fog_dist rx ry _ _
        p1d p1n p1i]
    rcases q12.lt_or_lt with hlt | hlt
    · rw [if_neg (not_lt.mpr hlt.le), if_pos hlt]
      exact ⟨rfl, by rw [if_neg (not_lt.mpr hlt.le)]⟩
    · rw [if_pos hlt, if_neg (not_lt.mpr hlt.le)]
      exact ⟨rfl, by rw [if_pos hlt]⟩

/-- C6 witness: the amended statement instantiated with two orthographic
faces at plane depths 2 and 1 and two perspective faces at camera depths 10
and 5 (both lit, fog enabled at distance 40, light at the camera origin,
square root exact on the distances that occur). -/
theorem C6_witness :
    ((-(10 ^ 30 : ℚ)) ≤ ortho_depth ⟨0, 0, 1⟩ ⟨0, 0, 2⟩ 0 0 ∧
     (-(10 ^ 30 : ℚ)) ≤ ortho_depth ⟨0, 0, 1⟩ ⟨0, 0, 1⟩ 0 0 ∧
     ortho_depth ⟨0, 0, 1⟩ ⟨0, 0, 2⟩ 0 0 ≠
       ortho_depth ⟨0, 0, 1⟩ ⟨0, 0, 1⟩ 0 0 ∧
     ¬ (|persp_denom ((0, 0, -1) : ℚ × ℚ × ℚ) 0 0| < 1 / 10 ^ 10) ∧
     (1 / 100 : ℚ) <
       persp_plane_d (0, 0, -1) (0, 0, 10) / persp_denom (0, 0, -1) 0 0 ∧
     (1 / 100 : ℚ) <
       persp_plane_d (0, 0, -1) (0, 0, 5) / persp_denom (0, 0, -1) 0 0 ∧
     0 < persp_idx sqrtW (12 / 100) (0, 0, -1) (0, 0, 0) 40 0 0
       (persp_plane_d (0, 0, -1) (0, 0, 10) / persp_denom (0, 0, -1) 0 0) ∧
     0 < persp_idx sqrtW (12 / 100) (0, 0, -1) (0, 0, 0) 40 0 0
       (persp_plane_d (0, 0, -1) (0, 0, 5) / persp_denom (0, 0, -1) 0 0) ∧
     (-(10 ^ 30 : ℚ)) ≤
       -(persp_plane_d (0, 0, -1) (0, 0, 10) / persp_denom (0, 0, -1) 0 0) ∧
     (-(10 ^ 30 : ℚ)) ≤
       -(persp_plane_d (0, 0, -1) (0, 0, 5) / persp_denom (0, 0, -1) 0 0) ∧
     -(persp_plane_d (0, 0, -1) (0, 0, 10) / persp_denom (0, 0, -1) 0 0) ≠
       -(persp_plane_d (0, 0, -1) (0, 0, 5) / persp_denom (0, 0, -1) 0 0)) ∧
    (ortho_pixel_step sqrtW (3, 4, 3) (12 / 100) ⟨0, 0, 1⟩ ⟨0, 0, 1⟩ 0 0
        (ortho_pixel_step sqrtW (3, 4, 3) (12 / 100) ⟨0, 0, 1⟩ ⟨0, 0, 2⟩ 0 0
          (-(10 ^ 30), " ")) =
      ortho_pixel_step sqrtW (3, 4, 3) (12 / 100) ⟨0, 0, 1⟩ ⟨0, 0, 2⟩ 0 0
        (ortho_pixel_step sqrtW (3, 4, 3) (12 / 100) ⟨0, 0, 1⟩ ⟨0, 0, 1⟩ 0 0
          (-(10 ^ 30), " ")) ∧
      (ortho_pixel_step sqrtW (3, 4, 3) (12 / 100) ⟨0, 0, 1⟩ ⟨0, 0, 1⟩ 0 0
        (ortho_pixel_step sqrtW (3, 4, 3) (12 / 100) ⟨0, 0, 1⟩ ⟨0, 0, 2⟩ 0 0
          (-(10 ^ 30), " "))).2 =
      (if ortho_depth ⟨0, 0, 1⟩ ⟨0, 0, 1⟩ 0 0 <
          ortho_depth ⟨0, 0, 1⟩ ⟨0, 0, 2⟩ 0 0
       then ortho_shade sqrtW (3, 4, 3) (12 / 100) ⟨0, 0, 1⟩ 0 0
         (ortho_depth ⟨0, 0, 1⟩ ⟨0, 0, 2⟩ 0 0)
       else ortho_shade sqrtW (3, 4, 3) (12 / 100) ⟨0, 0, 1⟩ 0 0
         (ortho_depth ⟨0, 0, 1⟩ ⟨0, 0, 1⟩ 0 0))) ∧
    (persp_pixel_step sqrtW (12 / 100) (0, 0, -1) (0, 0, 5) (0, 0, 0)
        (1 / 100) 40 0 0
        (persp_pixel_step sqrtW (12 / 100) (0, 0, -1) (0, 0, 10) (0, 0, 0)
          (1 / 100) 40 0 0 (-(10 ^ 30), " ")) =
      persp_pixel_step sqrtW (12 / 100) (0, 0, -1) (0, 0, 10) (0, 0, 0)
        (1 / 100) 40 0 0
        (persp_pixel_step sqrtW (12 / 100) (0, 0, -1) (0, 0, 5) (0, 0, 0)
          (1 / 100) 40 0 0 (-(10 ^ 30), " ")) ∧
      (persp_pixel_step sqrtW (12 / 100) (0, 0, -1) (0, 0, 5) (0, 0, 0)
        (1 / 100) 40 0 0
        (persp_pixel_step sqrtW (12 / 100) (0, 0, -1) (0, 0, 10) (0, 0, 0)
          (1 / 100) 40 0 0 (-(10 ^ 30), " "))).2 =
      (if -(persp_plane_d (0, 0, -1) (0, 0, 5) / persp_denom (0, 0, -1) 0 0) <
          -(persp_plane_d (0, 0, -1) (0, 0, 10) / persp_denom (0, 0, -1) 0 0)
       then shade_str (persp_idx sqrtW (12 / 100) (0, 0, -1) (0, 0, 0) 40 0 0
         (persp_plane_d (0, 0, -1) (0, 0, 10) / persp_denom (0, 0, -1) 0 0))
       else shade_str (persp_idx sqrtW (12 / 100) (0, 0, -1) (0, 0, 0) 40 0 0
         (persp_plane_d (0, 0, -1) (0, 0, 5) /
           persp_denom (0, 0, -1) 0 0)))) := by
  have ed1 : ortho_depth ⟨0, 0, 1⟩ ⟨0, 0, 2⟩ 0 0 = 2 := by
    norm_num [ortho_depth, ortho_nz_inv]
  have ed2 : ortho_depth ⟨0, 0, 1⟩ ⟨0, 0, 1⟩ 0 0 = 1 := by
    norm_num [ortho_depth, ortho_nz_inv]
  have ez1 : persp_plane_d ((0, 0, -1) : ℚ × ℚ × ℚ) (0, 0, 10) /
      persp_denom (0, 0, -1) 0 0 = 10 := by
    norm_num [persp_plane_d, persp_denom]
  have ez2 : persp_plane_d ((0, 0, -1) : ℚ × ℚ × ℚ) (0, 0, 5) /
      persp_denom (0, 0, -1) 0 0 = 5 := by
    norm_num [persp_plane_d, persp_denom]
  have h1 : (-(10 ^ 30 : ℚ)) ≤ ortho_depth ⟨0, 0, 1⟩ ⟨0, 0, 2⟩ 0 0 := by
    rw [ed1]; norm_num
  have h2 : (-(10 ^ 30 : ℚ)) ≤ ortho_depth ⟨0, 0, 1⟩ ⟨0, 0, 1⟩ 0 0 := by
    rw [ed2]; norm_num
  have h12 : ortho_depth ⟨0, 0, 1⟩ ⟨0, 0, 2⟩ 0 0 ≠
      ortho_depth ⟨0, 0, 1⟩ ⟨0, 0, 1⟩ 0 0 := by
    rw [ed1, ed2]; norm_num
  have pd : ¬ (|persp_denom ((0, 0, -1) : ℚ × ℚ × ℚ) 0 0| < 1 / 10 ^ 10) := by
    norm_num [persp_denom]
  have p1n : (1 / 100 : ℚ) < persp_plane_d (0, 0, -1) (0, 0, 10) /
      persp_denom (0, 0, -1) 0 0 := by rw [ez1]; norm_num
  have p2n : (1 / 100 : ℚ) < persp_plane_d (0, 0, -1) (0, 0, 5) /
      persp_denom (0, 0, -1) 0 0 := by rw [ez2]; norm_num
  have p1i : 0 < persp_idx sqrtW (12 / 100) (0, 0, -1) (0, 0, 0) 40 0 0
      (persp_plane_d (0, 0, -1) (0, 0, 10) / persp_denom (0, 0, -1) 0 0) := by
    rw [ez1]
    norm_num [persp_idx, persp_brightness, py_int, min_def, max_def, sqrtW]
  have p2i : 0 < persp_idx sqrtW (12 / 100) (0, 0, -1) (0, 0, 0) 40 0 0
      (persp_plane_d (0, 0, -1) (0, 0, 5) / persp_denom (0, 0, -1) 0 0) := by
    rw [ez2]
    norm_num [persp_idx, persp_brightness, py_int, min_def, max_def, sqrtW]
  have q1 : (-(10 ^ 30 : ℚ)) ≤ -(persp_plane_d (0, 0, -1) (0, 0, 10) /
      persp_denom (0, 0, -1) 0 0) := by rw [ez1]; norm_num
  have q2 : (-(10 ^ 30 : ℚ)) ≤ -(persp_plane_d (0, 0, -1) (0, 0, 5) /
      persp_denom (0, 0, -1) 0 0) := by rw [ez2]; norm_num
  have q12 : -(persp_plane_d ((0, 0, -1) : ℚ × ℚ × ℚ) (0, 0, 10) /
      persp_denom (0, 0, -1) 0 0) ≠
      -(persp_plane_d (0, 0, -1) (0, 0, 5) / persp_denom (0, 0, -1) 0 0) := by
    rw [ez1, ez2]; norm_num
  exact ⟨⟨h1, h2, h12, pd, p1n, p2n, p1i, p2i, q1, q2, q12⟩,
    C6_zbuffer_order_independence sqrtW (3, 4, 3) (12 / 100) ⟨0, 0, 1⟩
      ⟨0, 0, 2⟩ ⟨0, 0, 1⟩ ⟨0, 0, 1⟩ 0 0 (-(10 ^ 30)) " " (0, 0, -1)
      (0, 0, 10) (0, 0, -1) (0, 0, 5) (0, 0, 0) (1 / 100) 40 0 0
      (-(10 ^ 30)) " " h1 h2 h12 pd pd p1n p2n p1i p2i q1 q2 q12⟩

/-! ### C8 — tagged wireframe faces under fog -/

/-- C8 counterexample: with fog distance 10, a yellow path-marker face whose
four clipped vertices sit at camera depth 10 *survives clipping* (its
triangle stand-in clips to 3 ≥ 3 vertices at `near = 0.01`) yet is not drawn
at all: the fog cull `fog_fade < 0.03` fires *before* the tag check, so
`edge_string_for` returns `none` rather than the tagged color. -/
theorem C8_counterexample :
    PATH_EDGE ≠ TERRAIN_EDGE ∧
    (0 : ℚ) < 10 ∧
    (clip_polygon_near [(0, 0, 10), (1, 0, 10), (0, 1, 10)]
      (1 / 100)).length = 3 ∧
    edge_string_for true 10 [10, 10, 10, 10] 0 (some PATH_EDGE) = none := by
  refine ⟨by decide, by norm_num, ?_, ?_⟩
  · rw [clip_triangle_eq,
      clip_edge_in_in (1 / 100) (0, 0, 10) (1, 0, 10) (by norm_num)
        (by norm_num),
      clip_edge_in_in (1 / 100) (1, 0, 10) (0, 1, 10) (by norm_num)
        (by norm_num),
      clip_edge_in_in (1 / 100) (0, 1, 10) (0, 0, 10) (by norm_num)
        (by norm_num)]
    rfl
  · norm_num [edge_string_for, edge_fog_fade, min_def, max_def]

/-- C8 (amended): in the perspective pipeline with fog enabled, a wireframe
face tagged with a color other than the default terrain tint is drawn with
exactly its tagged color string, unaffected by fog fading, *whenever its fog
fade is at least 0.03*; when its fog fade drops below 0.03 (far faces), the
face is skipped entirely by the fog cull — not drawn in the tagged color. -/
theorem C8_tagged_wireframe_color (draw_edges : Bool) (fog_dist : ℚ)
    (cam_zs : List ℚ) (world_y : ℚ) (tag : String)
    (hfog : 0 < fog_dist) (htag : tag ≠ TERRAIN_EDGE) :
    (3 / 100 ≤ edge_fog_fade fog_dist cam_zs world_y true →
      edge_string_for draw_edges fog_dist cam_zs world_y (some tag) =
        some tag) ∧
    (edge_fog_fade fog_dist cam_zs world_y true < 3 / 100 →
      edge_string_for draw_edges fog_dist cam_zs world_y (some tag) =
        none) := by
  constructor
  · intro hge
    simp only [edge_string_for, Option.isSome]
    rw [if_neg (fun hc => Option.noConfusion hc.1), if_pos hfog,
      if_neg (fun hc => absurd hc.2 (not_lt.mpr hge)), if_pos htag]
  · intro hlt
    simp only [edge_string_for, Option.isSome]
    rw [if_neg (fun hc => Option.noConfusion hc.1), if_pos hfog,
      if_pos ⟨hfog, hlt⟩]

/-- C8 witness: fog distance 10, a path-marker face at camera depth 2 (fog
fade 24/25 ≥ 0.03) is drawn with exactly `PATH_EDGE`. -/
theorem C8_witness :
    (0 : ℚ) < 10 ∧
    PATH_EDGE ≠ TERRAIN_EDGE ∧
    (3 / 100 ≤ edge_fog_fade 10 [2, 2, 2, 2] 0 true →
      edge_string_for true 10 [2, 2, 2, 2] 0 (some PATH_EDGE) =
        some PATH_EDGE) ∧
    (edge_fog_fade 10 [2, 2, 2, 2] 0 true < 3 / 100 →
      edge_string_for true 10 [2, 2, 2, 2] 0 (some PATH_EDGE) = none) ∧
    edge_string_for true 10 [2, 2, 2, 2] 0 (some PATH_EDGE) =
      some PATH_EDGE := by
  have hfade : edge_fog_fade 10 [2, 2, 2, 2] 0 true = 24 / 25 := by
    norm_num [edge_fog_fade, min_def, max_def]
  have h := C8_tagged_wireframe_color true 10 [2, 2, 2, 2] 0 PATH_EDGE
    (by norm_num) (by decide)
  exact ⟨by norm_num, by decide, h.1, h.2, h.1 (by rw [hfade]; norm_num)⟩

/-! ### C10 — `set_fov` is a precondition of the orthographic path too -/

/-- A monadic fold over `Except` in which every element either passes the
state through unchanged or fails with `E` produces `E` as soon as some
element fails. -/
theorem foldlM_except_error {α β : Type} (g : β → α → Except RendErr β)
    (E : RendErr) (l : List α)
    (hstep : ∀ x ∈ l, (∀ b, g b x = Except.ok b) ∨
      (∀ b, g b x = Except.error E))
    (hex : ∃ x ∈ l, ∀ b, g b x = Except.error E) :
    ∀ b, List.foldlM g b l = Except.error E := by
  induction l with
  | nil =>
    rcases hex with ⟨x, hx, _⟩
    cases hx
  | cons a l ih =>
    intro b
    rw [List.foldlM_cons]
    rcases hstep a (List.mem_cons_self a l) with ha | ha
    · rw [ha b]
      have hbind : (Except.ok b >>= fun b2 => List.foldlM g b2 l) =
          List.foldlM g b l := rfl
      rw [hbind]
      refine ih (fun x hx => hstep x (List.mem_cons_of_mem _ hx)) ?_ b
      rcases hex with ⟨x, hx, hgx⟩
      rcases List.mem_cons.mp hx with rfl | hx2
      · exact absurd ((ha b).symm.trans (hgx b)) (by simp)
      · exact ⟨x, hx2, hgx⟩
    · rw [ha b]
      rfl

/-- C10: `set_fov` is a precondition of *both* pipelines.  A fresh
`Renderer(width, height)` has no `light_pos`/`ambient` (they are assigned
only inside `set_fov`), and rendering with no camera — the orthographic
path — fails with the missing-attribute error instead of producing a
buffer, as soon as the face list contains any visible, fully projected face
(the orthographic fill reads `light_pos` before its pixel loops). -/
theorem C10_render_requires_set_fov (w h : ℕ) (sqrtA : ℚ → ℚ)
    (fd : List (List VecQ × VecQ × VecQ))
    (hf : ∃ f ∈ fd, 0 < f.2.2.z ∧
      ((f.1.map (project_vertex_ortho (mk_renderer w h))).all
        Option.isSome) = true) :
    (mk_renderer w h).light_pos = none ∧
    (mk_renderer w h).ambient = none ∧
    (∀ t : ℚ, (set_fov (mk_renderer w h) t).light_pos = some (3, 4, 3) ∧
      (set_fov (mk_renderer w h) t).ambient = some (12 / 100)) ∧
    render_ortho (mk_renderer w h) sqrtA fd =
      Except.error RendErr.attribute_missing := by
  refine ⟨rfl, rfl, fun t => ⟨rfl, rfl⟩, ?_⟩
  simp only [render_ortho]
  have hfold : List.foldlM
      (fun (bz : BufZ) (f : List VecQ × VecQ × VecQ) =>
        let pr := f.1.map (project_vertex_ortho (mk_renderer w h))
        if pr.all Option.isSome then
          fill_face_ortho (mk_renderer w h) sqrtA
            (pr.map (fun (o : Option (ℤ × ℤ)) => o.getD (0, 0)))
            (f.1.headD ⟨0, 0, 0⟩) f.2.2 bz
        else pure bz)
      ((fun _ _ => " "), (fun _ _ => -(10 ^ 30 : ℚ)))
      (fd.filter (fun f => decide (0 < f.2.2.z))) =
      Except.error RendErr.attribute_missing := by
    apply foldlM_except_error
    · intro f _
      by_cases hall : (f.1.map (project_vertex_ortho (mk_renderer w h))).all
          Option.isSome = true
      · right
        intro b
        simp only [hall, if_true]
        rfl
      · left
        intro b
        simp only [if_neg hall]
        rfl
    · rcases hf with ⟨f, hmem, hz, hall⟩
      refine ⟨f, List.mem_filter.mpr ⟨hmem, by simpa using hz⟩, ?_⟩
      intro b
      simp only [hall, if_true]
      rfl
  rw [hfold]
  rfl

/-- C10 witness: a 10×10 renderer constructed without `set_fov` and a single
visible unit triangle at `z = 1` (its normal `(0,0,1)` passes the cull and
all three vertices project on-screen). -/
theorem C10_witness :
    (∃ f ∈ [([⟨0, 0, 1⟩, ⟨1, 0, 1⟩, ⟨0, 1, 1⟩],
        (⟨0, 0, 1⟩ : VecQ), (⟨0, 0, 1⟩ : VecQ))],
      0 < f.2.2.z ∧
      ((f.1.map (project_vertex_ortho (mk_renderer 10 10))).all
        Option.isSome) = true) ∧
    ((mk_renderer 10 10).light_pos = none ∧
     (mk_renderer 10 10).ambient = none ∧
     (∀ t : ℚ, (set_fov (mk_renderer 10 10) t).light_pos = some (3, 4, 3) ∧
       (set_fov (mk_renderer 10 10) t).ambient = some (12 / 100)) ∧
     render_ortho (mk_renderer 10 10) sqrtW
       [([⟨0, 0, 1⟩, ⟨1, 0, 1⟩, ⟨0, 1, 1⟩], (⟨0, 0, 1⟩ : VecQ), (⟨0, 0, 1⟩ : VecQ))] =
       Except.error RendErr.attribute_missing) := by
  have hex : ∃ f ∈ [([⟨0, 0, 1⟩, ⟨1, 0, 1⟩, ⟨0, 1, 1⟩],
      (⟨0, 0, 1⟩ : VecQ), (⟨0, 0, 1⟩ : VecQ))],
      0 < f.2.2.z ∧
      ((f.1.map (project_vertex_ortho (mk_renderer 10 10))).all
        Option.isSome) = true := by
    refine ⟨_, List.mem_singleton_self _, by norm_num, ?_⟩
    norm_num [project_vertex_ortho, py_round, mk_renderer, List.all,
      Option.isSome]
  exact ⟨hex, C10_render_requires_set_fov 10 10 sqrtW _ hex⟩

/-! ### C2 — chunk generation is deterministic in its arguments -/

/-- C2: constructing `ForestChunk` twice with identical
`(world_seed, cx, cz, chunk_size, terrain_only)` — for *any* realization
`RNG` of the `random.Random` stream family, since the local stream is seeded
deterministically as `RNG (chunk_seed world_seed cx cz)` — produces face
lists of identical length whose corresponding vertices, centroids, normals
and wireframe tags are identical. -/
theorem C2_chunk_determinism (RNG : ℕ → ℕ → ℝ) (world_seed cx cz : ℤ)
    (cs : ℝ) (terrain_only : Bool) (c1 c2 : ForestChunk)
    (h1 : c1 = mkForestChunk RNG world_seed cx cz cs terrain_only)
    (h2 : c2 = mkForestChunk RNG world_seed cx cz cs terrain_only) :
    c1.face_data.length = c2.face_data.length ∧
    c1.face_data.map FaceRec.verts = c2.face_data.map FaceRec.verts ∧
    c1.face_data.map FaceRec.center = c2.face_data.map FaceRec.center ∧
    c1.face_data.map FaceRec.normal = c2.face_data.map FaceRec.normal ∧
    c1.face_data.map FaceRec.tag = c2.face_data.map FaceRec.tag := by
  subst h1 h2
  exact ⟨rfl, rfl, rfl, rfl, rfl⟩

/-- C2 witness: seed 42, chunk `(0, 0)`, size 12, full detail, with the
constant-zero stream standing in for `random.Random`. -/
theorem C2_witness :
    (mkForestChunk (fun _ _ => 0) 42 0 0 12 false =
      mkForestChunk (fun _ _ => 0) 42 0 0 12 false) ∧
    ((mkForestChunk (fun _ _ => 0) 42 0 0 12 false).face_data.length =
      (mkForestChunk (fun _ _ => 0) 42 0 0 12 false).face_data.length ∧
     (mkForestChunk (fun _ _ => 0) 42 0 0 12 false).face_data.map
        FaceRec.verts =
      (mkForestChunk (fun _ _ => 0) 42 0 0 12 false).face_data.map
        FaceRec.verts ∧
     (mkForestChunk (fun _ _ => 0) 42 0 0 12 false).face_data.map
        FaceRec.center =
      (mkForestChunk (fun _ _ => 0) 42 0 0 12 false).face_data.map
        FaceRec.center ∧
     (mkForestChunk (fun _ _ => 0) 42 0 0 12 false).face_data.map
        FaceRec.normal =
      (mkForestChunk (fun _ _ => 0) 42 0 0 12 false).face_data.map
        FaceRec.normal ∧
     (mkForestChunk (fun _ _ => 0) 42 0 0 12 false).face_data.map
        FaceRec.tag =
      (mkForestChunk (fun _ _ => 0) 42 0 0 12 false).face_data.map
        FaceRec.tag) :=
  ⟨rfl, C2_chunk_determinism (fun _ _ => 0) 42 0 0 12 false _ _ rfl rfl⟩

/-! ### C3 — the streaming tier invariant of `ForestWorld.update` -/

/-- Anything in the result of a loading loop was already loaded or appears in
the iterated key list. -/
theorem load_up_to_subset (budget : ℕ) (keys : List (ℤ × ℤ))
    (s : Finset (ℤ × ℤ)) (cnt : ℕ) (k : ℤ × ℤ)
    (hk : k ∈ load_up_to budget keys s cnt) :
    k ∈ s ∨ k ∈ keys := by
  induction keys generalizing s cnt with
  | nil =>
    simp only [load_up_to] at hk
    exact Or.inl hk
  | cons a rest ih =>
    simp only [load_up_to] at hk
    by_cases has : a ∈ s
    · rw [if_pos has] at hk
      rcases ih s cnt hk with h | h
      · exact Or.inl h
      · exact Or.inr (List.mem_cons_of_mem _ h)
    · rw [if_neg has] at hk
      by_cases hb : budget ≤ cnt + 1
      · rw [if_pos hb] at hk
        rcases Finset.mem_insert.mp hk with rfl | h
        · exact Or.inr (List.mem_cons_self _ _)
        · exact Or.inl h
      · rw [if_neg hb] at hk
        rcases ih (insert a s) (cnt + 1) hk with h | h
        · rcases Finset.mem_insert.mp h with rfl | h2
          · exact Or.inr (List.mem_cons_self _ _)
          · exact Or.inl h2
        · exact Or.inr (List.mem_cons_of_mem _ h)

/-- Membership in the scanned square bounds both Chebyshev coordinates. -/
theorem mem_cheb_square {k c : ℤ × ℤ} {r : ℤ} (hk : k ∈ cheb_square c r) :
    |k.1 - c.1| ≤ r ∧ |k.2 - c.2| ≤ r := by
  rw [cheb_square, Finset.mem_product] at hk
  rcases hk with ⟨hx, hz⟩
  rw [Finset.mem_Icc] at hx hz
  exact ⟨abs_le.mpr ⟨by omega, by omega⟩, abs_le.mpr ⟨by omega, by omega⟩⟩

/-- Under a consistent mountain cache, every key of `all_needed` satisfies
the claim's phrasing of the tier union. -/
theorem all_needed_in_union (w : WorldState) (cam_x cam_z : ℚ)
    (hcache : ∀ k b, w.mtn_cache k = some b →
      b = chunk_has_mountain k.1 k.2 w.chunk_size w.seed (7 / 10))
    (k : ℤ × ℤ) (hk : k ∈ all_needed_set w cam_x cam_z) :
    in_tier_union w cam_x cam_z k := by
  rw [all_needed_set] at hk
  rcases Finset.mem_union.mp hk with hk12 | hk3
  · rcases Finset.mem_union.mp hk12 with hk1 | hk2
    · rw [tier1_set] at hk1
      exact Or.inl (mem_cheb_square hk1)
    · rw [tier2_set] at hk2
      exact Or.inr (Or.inl (mem_cheb_square (Finset.mem_sdiff.mp hk2).1))
  · right
    right
    rw [tier3_set, Finset.mem_filter] at hk3
    rcases hk3 with ⟨hscan, hcac⟩
    have hbound := mem_cheb_square
      ((Finset.mem_sdiff.mp (by rwa [mtn_scan_set] at hscan)).1)
    refine ⟨⟨hbound.1, hbound.2⟩, ?_⟩
    rw [cache_after, if_pos hscan] at hcac
    cases hmc : w.mtn_cache k with
    | none =>
      rw [hmc] at hcac
      simpa using hcac
    | some b =>
      rw [hmc] at hcac
      have hb : b = true := by simpa using hcac
      rw [← hcache k b hmc, hb]

/-- `update` maintains cache consistency: starting from a consistent (e.g.
empty) mountain cache, the post-call cache only holds values that agree with
`chunk_has_mountain` — so C3's cache hypothesis is an invariant of the
system, established at `ForestWorld.__init__` and preserved by every call. -/
theorem cache_after_consistent (w : WorldState) (cam_x cam_z : ℚ)
    (hcache : ∀ k b, w.mtn_cache k = some b →
      b = chunk_has_mountain k.1 k.2 w.chunk_size w.seed (7 / 10)) :
    ∀ k b, cache_after w cam_x cam_z k = some b →
      b = chunk_has_mountain k.1 k.2 w.chunk_size w.seed (7 / 10) := by
  intro k b h
  rw [cache_after] at h
  by_cases hs : k ∈ mtn_scan_set w cam_x cam_z
  · rw [if_pos hs] at h
    cases hmc : w.mtn_cache k with
    | none =>
      rw [hmc] at h
      have : chunk_has_mountain k.1 k.2 w.chunk_size w.seed (7 / 10) = b := by
        simpa using h
      exact this.symm
    | some b2 =>
      rw [hmc] at h
      have hb : b2 = b := by simpa using h
      exact hb ▸ hcache k b2 hmc
  · rw [if_neg hs] at h
    exact hcache k b h

/-- C3: immediately after `ForestWorld.update`, every loaded chunk key lies
in the union of the three tier sets computed during that call (Chebyshev
distance at most `render_distance`; at most `max(8, 3·rd)`; at most
`max(16, 3·rd)` with `chunk_has_mountain` true), and any previously loaded
chunk outside this union is removed by that same call.  The hypotheses say
the mountain cache is consistent (which `update` maintains from an empty
initial cache) and that `o1, o2, o3` enumerate keys of the respective tier
sets (Python iterates exactly those sets, in unspecified order). -/
theorem C3_update_tier_invariant (w : WorldState) (cam_x cam_z : ℚ)
    (o1 o2 o3 : List (ℤ × ℤ))
    (hcache : ∀ k b, w.mtn_cache k = some b →
      b = chunk_has_mountain k.1 k.2 w.chunk_size w.seed (7 / 10))
    (h1 : ∀ k ∈ o1, k ∈ tier1_set w cam_x cam_z)
    (h2 : ∀ k ∈ o2, k ∈ tier2_set w cam_x cam_z)
    (h3 : ∀ k ∈ o3, k ∈ tier3_set w cam_x cam_z) :
    (∀ k ∈ (world_update w cam_x cam_z o1 o2 o3).chunks,
      in_tier_union w cam_x cam_z k) ∧
    (∀ k ∈ w.chunks, ¬ in_tier_union w cam_x cam_z k →
      k ∉ (world_update w cam_x cam_z o1 o2 o3).chunks) := by
  have hA : ∀ k ∈ (world_update w cam_x cam_z o1 o2 o3).chunks,
      in_tier_union w cam_x cam_z k := by
    intro k hmem
    simp only [world_update] at hmem
    rcases load_up_to_subset _ _ _ _ _ hmem with hmem2 | ho3
    · rcases load_up_to_subset _ _ _ _ _ hmem2 with hmem3 | ho2
      · rcases load_up_to_subset _ _ _ _ _ hmem3 with hkept | ho1
        · exact all_needed_in_union w cam_x cam_z hcache k
            (Finset.mem_inter.mp hkept).2
        · exact all_needed_in_union w cam_x cam_z hcache k
            (by rw [all_needed_set]
                exact Finset.mem_union_left _
                  (Finset.mem_union_left _ (h1 k ho1)))
      · exact all_needed_in_union w cam_x cam_z hcache k
          (by rw [all_needed_set]
              exact Finset.mem_union_left _
                (Finset.mem_union_right _ (h2 k ho2)))
    · exact all_needed_in_union w cam_x cam_z hcache k
        (by rw [all_needed_set]
            exact Finset.mem_union_right _ (h3 k ho3))
  exact ⟨hA, fun k _ hnot hmem => hnot (hA k hmem)⟩

/-- C3 witness: a world with seed 42, chunk size 12, render distance 2, a
stale chunk loaded at `(99, 99)`, an empty mountain cache, the camera at the
origin and empty iteration lists (loading budgets unexercised). -/
theorem C3_witness :
    (∀ k b, (⟨42, 12, 2, {(99, 99)}, fun _ => none⟩ :
        WorldState).mtn_cache k = some b →
      b = chunk_has_mountain k.1 k.2
        (⟨42, 12, 2, {(99, 99)}, fun _ => none⟩ : WorldState).chunk_size
        (⟨42, 12, 2, {(99, 99)}, fun _ => none⟩ : WorldState).seed
        (7 / 10)) ∧
    (∀ k ∈ ([] : List (ℤ × ℤ)),
      k ∈ tier1_set (⟨42, 12, 2, {(99, 99)}, fun _ => none⟩ : WorldState)
        0 0) ∧
    (∀ k ∈ ([] : List (ℤ × ℤ)),
      k ∈ tier2_set (⟨42, 12, 2, {(99, 99)}, fun _ => none⟩ : WorldState)
        0 0) ∧
    (∀ k ∈ ([] : List (ℤ × ℤ)),
      k ∈ tier3_set (⟨42, 12, 2, {(99, 99)}, fun _ => none⟩ : WorldState)
        0 0) ∧
    ((∀ k ∈ (world_update
        (⟨42, 12, 2, {(99, 99)}, fun _ => none⟩ : WorldState) 0 0 [] []
        []).chunks,
      in_tier_union (⟨42, 12, 2, {(99, 99)}, fun _ => none⟩ : WorldState)
        0 0 k) ∧
     (∀ k ∈ (⟨42, 12, 2, {(99, 99)}, fun _ => none⟩ : WorldState).chunks,
      ¬ in_tier_union (⟨42, 12, 2, {(99, 99)}, fun _ => none⟩ : WorldState)
        0 0 k →
      k ∉ (world_update
        (⟨42, 12, 2, {(99, 99)}, fun _ => none⟩ : WorldState) 0 0 [] []
        []).chunks)) := by
  refine ⟨fun k b h => Option.noConfusion h,
    fun k hk => absurd hk (List.not_mem_nil k),
    fun k hk => absurd hk (List.not_mem_nil k),
    fun k hk => absurd hk (List.not_mem_nil k), ?_⟩
  exact C3_update_tier_invariant
    (⟨42, 12, 2, {(99, 99)}, fun _ => none⟩ : WorldState) 0 0 [] [] []
    (fun k b h => Option.noConfusion h)
    (fun k hk => absurd hk (List.not_mem_nil k))
    (fun k hk => absurd hk (List.not_mem_nil k))
    (fun k hk => absurd hk (List.not_mem_nil k))

end
